import Mathlib

/-!
# Verification of the ESP32 BMS monitor's wire-protocol decoding core

Shallow embedding of `src/lib/daly_bms/daly_bms.c` and
`src/lib/jbd_bms/jbd_bms.c` (with their headers).  Wire frames are lists
of byte values (`List Nat`); the C `float` fields are modelled as exact
rationals (`ℚ`) — every operation the drivers perform on these fields
(scaling by 10/100/1000, multiplication, absolute value, comparison,
subtraction) is order- and value-faithful on the small integral raw
values involved.  Fixed C arrays are modelled as total functions
`Nat → _`, updated with `Function.update` at the written index, so that
"which indices does the decoder write" is directly expressible.
The UART is an abstract oracle `recv : Nat → List Nat` giving the bytes
delivered by the k-th `uart_read_bytes` call of the cycle (an empty list
models a timeout / zero-byte read).
-/

namespace BmsMonitor

/-- Read byte `i` of a frame; out-of-range reads yield `0`, matching the
`memset`-cleared receive buffers of both drivers. -/
def byteAt (f : List Nat) (i : Nat) : Nat := f.getD i 0

/-- Big-endian 16-bit read `(f[hi] << 8) | f[lo]` (`_getushort` in the JBD
driver, and the inline shift-or pattern of the Daly driver). -/
def u16At (f : List Nat) (hi lo : Nat) : Nat := byteAt f hi * 256 + byteAt f lo

/-- Interpret a 16-bit raw value as a signed two's-complement `int16_t`. -/
def toInt16 (n : Nat) : ℤ :=
  if n % 65536 < 32768 then (n % 65536 : ℤ) else (n % 65536 : ℤ) - 65536

/-- Interpret a byte as a signed `int8_t`. -/
def toInt8 (n : Nat) : ℤ :=
  if n % 256 < 128 then (n % 256 : ℤ) else (n % 256 : ℤ) - 256

/-! ## Daly driver (`daly_bms.c`): constants and data model -/

def DALY_XFER_BUFFER_LENGTH : Nat := 13
def DALY_MAX_NUMBER_CELLS : Nat := 48
def DALY_MAX_NUMBER_TEMP_SENSORS : Nat := 16

def DALY_CMD_VOUT_IOUT_SOC : Nat := 0x90
def DALY_CMD_MIN_MAX_CELL_VOLTAGE : Nat := 0x91
def DALY_CMD_MIN_MAX_TEMPERATURE : Nat := 0x92
def DALY_CMD_DISCHARGE_CHARGE_MOS_STATUS : Nat := 0x93
def DALY_CMD_STATUS_INFO : Nat := 0x94
def DALY_CMD_CELL_VOLTAGES : Nat := 0x95
def DALY_CMD_CELL_TEMPERATURE : Nat := 0x96
def DALY_CMD_CELL_BALANCE_STATE : Nat := 0x97
def DALY_CMD_FAILURE_CODES : Nat := 0x98
def DALY_CMD_DISCHRG_FET : Nat := 0xD9
def DALY_CMD_CHRG_FET : Nat := 0xDA

/-- `daly_bms_data_t` (fields touched by the measurement path; the alarm
struct of command 0x98 is modelled separately below). -/
structure DalyData where
  packVoltage : ℚ
  packCurrent : ℚ
  packSOC : ℚ
  power : ℚ
  maxCellmV : ℚ
  maxCellVNum : ℤ
  minCellmV : ℚ
  minCellVNum : ℤ
  cellDiff : ℚ
  tempMax : ℤ
  tempMin : ℤ
  tempAverage : ℚ
  chargeFetState : Bool
  disChargeFetState : Bool
  bmsHeartBeat : ℤ
  resCapacitymAh : ℤ
  numberOfCells : ℤ
  numOfTempSensors : ℤ
  chargeState : Bool
  loadState : Bool
  bmsCycles : ℤ
  cellVmV : Nat → ℚ
  cellTemperature : Nat → ℤ
  cellBalanceState : Nat → Bool
  cellBalanceActive : Bool
  peakCurrent : ℚ
  peakPower : ℚ

/-- `daly_bms_alarm_t`, first two alarm bytes (the C decoder parses only
bytes 4 and 5 of the 0x98 response). -/
structure DalyAlarm where
  levelOneCellVoltageTooHigh : Bool
  levelTwoCellVoltageTooHigh : Bool
  levelOneCellVoltageTooLow : Bool
  levelTwoCellVoltageTooLow : Bool
  levelOnePackVoltageTooHigh : Bool
  levelTwoPackVoltageTooHigh : Bool
  levelOnePackVoltageTooLow : Bool
  levelTwoPackVoltageTooLow : Bool
  levelOneChargeTempTooHigh : Bool
  levelTwoChargeTempTooHigh : Bool
  levelOneChargeTempTooLow : Bool
  levelTwoChargeTempTooLow : Bool
  levelOneDischargeTempTooHigh : Bool
  levelTwoDischargeTempTooHigh : Bool
  levelOneDischargeTempTooLow : Bool
  levelTwoDischargeTempTooLow : Bool

/-- The driver handle state relevant to a poll: measurement data plus the
alarm flags. -/
structure DalyState where
  data : DalyData
  alarm : DalyAlarm

/-- The `calloc`-zeroed handle after `daly_bms_init` (which sets the two
peak fields to `0.0f`, already zero). -/
def dalyZeroData : DalyData where
  packVoltage := 0
  packCurrent := 0
  packSOC := 0
  power := 0
  maxCellmV := 0
  maxCellVNum := 0
  minCellmV := 0
  minCellVNum := 0
  cellDiff := 0
  tempMax := 0
  tempMin := 0
  tempAverage := 0
  chargeFetState := false
  disChargeFetState := false
  bmsHeartBeat := 0
  resCapacitymAh := 0
  numberOfCells := 0
  numOfTempSensors := 0
  chargeState := false
  loadState := false
  bmsCycles := 0
  cellVmV := fun _ => 0
  cellTemperature := fun _ => 0
  cellBalanceState := fun _ => false
  cellBalanceActive := false
  peakCurrent := 0
  peakPower := 0

def dalyZeroAlarm : DalyAlarm where
  levelOneCellVoltageTooHigh := false
  levelTwoCellVoltageTooHigh := false
  levelOneCellVoltageTooLow := false
  levelTwoCellVoltageTooLow := false
  levelOnePackVoltageTooHigh := false
  levelTwoPackVoltageTooHigh := false
  levelOnePackVoltageTooLow := false
  levelTwoPackVoltageTooLow := false
  levelOneChargeTempTooHigh := false
  levelTwoChargeTempTooHigh := false
  levelOneChargeTempTooLow := false
  levelTwoChargeTempTooLow := false
  levelOneDischargeTempTooHigh := false
  levelTwoDischargeTempTooHigh := false
  levelOneDischargeTempTooLow := false
  levelTwoDischargeTempTooLow := false

def dalyZeroState : DalyState := ⟨dalyZeroData, dalyZeroAlarm⟩

/-! ## Daly frame validation (`daly_bms_receive_bytes`) -/

/-- The 8-bit truncated sum of bytes 0..11, as computed by the `uint8_t
checksum` accumulation loops of `daly_bms_send_command` and
`daly_bms_receive_bytes`. -/
def dalyChecksum (f : List Nat) : Nat := (f.take 12).sum % 256

/-- `daly_bms_receive_bytes`: the read succeeds iff exactly 13 bytes were
delivered and the truncated sum of the first 12 equals byte 12. -/
def dalyValidFrame (f : List Nat) : Bool :=
  f.length == DALY_XFER_BUFFER_LENGTH && dalyChecksum f == byteAt f 12

/-! ## Daly per-command decode steps

Each `daly_bms_get_*` function sends its fixed command, reads one frame
and, if the frame validates, stores the decoded fields; it returns
whether the frame validated.  The frame each step reads is supplied as
an argument (`rx`), keeping each step a pure transform. -/

/-- `daly_bms_get_pack_measurements` (command 0x90). -/
def daly_bms_get_pack_measurements (s : DalyState) (rx : List Nat) : DalyState × Bool :=
  if dalyValidFrame rx then
    let voltage : ℚ := (u16At rx 4 5 : ℚ) / 10
    let current : ℚ := (toInt16 (u16At rx 8 9) : ℚ) / 10
    let soc : ℚ := (u16At rx 10 11 : ℚ) / 100
    ({ s with data := { s.data with
        packVoltage := voltage
        packCurrent := current
        packSOC := soc
        power := voltage * current } }, true)
  else (s, false)

/-- `daly_bms_get_min_max_cell_voltage` (command 0x91). -/
def daly_bms_get_min_max_cell_voltage (s : DalyState) (rx : List Nat) : DalyState × Bool :=
  if dalyValidFrame rx then
    let maxV : ℚ := (u16At rx 4 5 : ℚ)
    let minV : ℚ := (u16At rx 7 8 : ℚ)
    ({ s with data := { s.data with
        maxCellmV := maxV
        minCellmV := minV
        maxCellVNum := (byteAt rx 6 : ℤ)
        minCellVNum := (byteAt rx 9 : ℤ)
        cellDiff := maxV - minV } }, true)
  else (s, false)

/-- `daly_bms_get_pack_temp` (command 0x92). -/
def daly_bms_get_pack_temp (s : DalyState) (rx : List Nat) : DalyState × Bool :=
  if dalyValidFrame rx then
    let tMax := toInt8 (byteAt rx 4)
    let tMin := toInt8 (byteAt rx 6)
    ({ s with data := { s.data with
        tempMax := tMax
        tempMin := tMin
        tempAverage := ((tMax + tMin : ℤ) : ℚ) / 2 } }, true)
  else (s, false)

/-- `daly_bms_get_status_info` (command 0x94).  The count bytes are stored
as read, without clipping. -/
def daly_bms_get_status_info (s : DalyState) (rx : List Nat) : DalyState × Bool :=
  if dalyValidFrame rx then
    ({ s with data := { s.data with
        numberOfCells := (byteAt rx 4 : ℤ)
        numOfTempSensors := (byteAt rx 5 : ℤ)
        chargeState := byteAt rx 6 == 1
        loadState := byteAt rx 7 == 1
        bmsCycles := (u16At rx 10 11 : ℤ) } }, true)
  else (s, false)

/-- The body of the cell-voltage loop of `daly_bms_get_cell_voltages`:
`for (int i = 0; i < 3 && (i * 3 + 3) <= numberOfCells; i++)`, stopping at
the first index where the condition fails, writing three overlapping
16-bit reads per iteration (indices `i*3 .. i*3+2`, source bytes
`4+i*3 .. 4+i*3+3` — for `i = 2` the last read touches byte 13, one past
the 13-byte receive buffer, which this model reads as `0`). -/
def dalyCellVoltageLoop (rx : List Nat) (nCells : ℤ) :
    Nat → Nat → (Nat → ℚ) → (Nat → ℚ)
  | 0, _, arr => arr
  | fuel + 1, i, arr =>
    if i < 3 ∧ ((i : ℤ) * 3 + 3) ≤ nCells then
      let base := 4 + i * 3
      let arr' :=
        if base + 2 < DALY_XFER_BUFFER_LENGTH then
          Function.update
            (Function.update
              (Function.update arr (i * 3) (u16At rx base (base + 1) : ℚ))
              (i * 3 + 1) (u16At rx (base + 1) (base + 2) : ℚ))
            (i * 3 + 2) (u16At rx (base + 2) (base + 3) : ℚ)
        else arr
      dalyCellVoltageLoop rx nCells fuel (i + 1) arr'
    else arr

/-- `daly_bms_get_cell_voltages` (command 0x95). -/
def daly_bms_get_cell_voltages (s : DalyState) (rx : List Nat) : DalyState × Bool :=
  if dalyValidFrame rx then
    ({ s with data := { s.data with
        cellVmV := dalyCellVoltageLoop rx s.data.numberOfCells 3 0 s.data.cellVmV } }, true)
  else (s, false)

/-- The body of the temperature loop of `daly_bms_get_cell_temperature`:
`for (int i = 0; i < 7 && i < numOfTempSensors; i++)`. -/
def dalyCellTempLoop (rx : List Nat) (nSensors : ℤ) :
    Nat → Nat → (Nat → ℤ) → (Nat → ℤ)
  | 0, _, arr => arr
  | fuel + 1, i, arr =>
    if i < 7 ∧ (i : ℤ) < nSensors then
      dalyCellTempLoop rx nSensors fuel (i + 1)
        (Function.update arr i (toInt8 (byteAt rx (4 + i))))
    else arr

/-- `daly_bms_get_cell_temperature` (command 0x96). -/
def daly_bms_get_cell_temperature (s : DalyState) (rx : List Nat) : DalyState × Bool :=
  if dalyValidFrame rx then
    ({ s with data := { s.data with
        cellTemperature :=
          dalyCellTempLoop rx s.data.numOfTempSensors 7 0 s.data.cellTemperature } }, true)
  else (s, false)

/-- The body of the balance-state loop of `daly_bms_get_cell_balance_state`:
`for (int i = 0; i < 32 && i < numberOfCells; i++)`. -/
def dalyBalanceLoop (raw : Nat) (nCells : ℤ) :
    Nat → Nat → (Nat → Bool) → (Nat → Bool)
  | 0, _, arr => arr
  | fuel + 1, i, arr =>
    if i < 32 ∧ (i : ℤ) < nCells then
      dalyBalanceLoop raw nCells fuel (i + 1)
        (Function.update arr i (raw.testBit i))
    else arr

/-- `daly_bms_get_cell_balance_state` (command 0x97). -/
def daly_bms_get_cell_balance_state (s : DalyState) (rx : List Nat) : DalyState × Bool :=
  if dalyValidFrame rx then
    let raw := byteAt rx 4 * 2 ^ 24 + byteAt rx 5 * 2 ^ 16 + byteAt rx 6 * 2 ^ 8 + byteAt rx 7
    ({ s with data := { s.data with
        cellBalanceState := dalyBalanceLoop raw s.data.numberOfCells 32 0 s.data.cellBalanceState
        cellBalanceActive := raw != 0 } }, true)
  else (s, false)

/-- `daly_bms_get_failure_codes` (command 0x98): the source decodes alarm
bytes 4 and 5 into the first sixteen named flags. -/
def daly_bms_get_failure_codes (s : DalyState) (rx : List Nat) : DalyState × Bool :=
  if dalyValidFrame rx then
    let b4 := byteAt rx 4
    let b5 := byteAt rx 5
    ({ s with alarm := { s.alarm with
        levelOneCellVoltageTooHigh := b4.testBit 0
        levelTwoCellVoltageTooHigh := b4.testBit 1
        levelOneCellVoltageTooLow := b4.testBit 2
        levelTwoCellVoltageTooLow := b4.testBit 3
        levelOnePackVoltageTooHigh := b4.testBit 4
        levelTwoPackVoltageTooHigh := b4.testBit 5
        levelOnePackVoltageTooLow := b4.testBit 6
        levelTwoPackVoltageTooLow := b4.testBit 7
        levelOneChargeTempTooHigh := b5.testBit 0
        levelTwoChargeTempTooHigh := b5.testBit 1
        levelOneChargeTempTooLow := b5.testBit 2
        levelTwoChargeTempTooLow := b5.testBit 3
        levelOneDischargeTempTooHigh := b5.testBit 4
        levelTwoDischargeTempTooHigh := b5.testBit 5
        levelOneDischargeTempTooLow := b5.testBit 6
        levelTwoDischargeTempTooLow := b5.testBit 7 } }, true)
  else (s, false)

/-- `daly_bms_get_discharge_charge_mos_status` (command 0x93). -/
def daly_bms_get_discharge_charge_mos_status (s : DalyState) (rx : List Nat) : DalyState × Bool :=
  if dalyValidFrame rx then
    ({ s with data := { s.data with
        chargeFetState := byteAt rx 4 == 1
        disChargeFetState := byteAt rx 5 == 1
        bmsHeartBeat := (byteAt rx 6 : ℤ)
        resCapacitymAh := (u16At rx 8 9 : ℤ) } }, true)
  else (s, false)

/-- `daly_bms_update_peak_values`: peak current and peak power become the
previous peak or the absolute value of the new sample, whichever is
larger. -/
def daly_bms_update_peak_values (s : DalyState) : DalyState :=
  let absCurrent := |s.data.packCurrent|
  let s1 :=
    if absCurrent > s.data.peakCurrent then
      { s with data := { s.data with peakCurrent := absCurrent } }
    else s
  let absPower := |s1.data.power|
  if absPower > s1.data.peakPower then
    { s1 with data := { s1.data with peakPower := absPower } }
  else s1

/-- `daly_bms_update`: result state, reported success, and the commands
sent (in order) during the cycle.  `rx k` is the frame delivered to the
k-th receive of the cycle.  The source returns `false` immediately when
`daly_bms_get_pack_measurements` fails; the return values of the eight
remaining steps are discarded and the cycle ends with `return true`. -/
def daly_bms_update (s : DalyState) (rx : Nat → List Nat) :
    DalyState × Bool × List Nat :=
  let r0 := daly_bms_get_pack_measurements s (rx 0)
  if !r0.2 then (r0.1, false, [DALY_CMD_VOUT_IOUT_SOC])
  else
    let s1 := (daly_bms_get_min_max_cell_voltage r0.1 (rx 1)).1
    let s2 := (daly_bms_get_pack_temp s1 (rx 2)).1
    let s3 := (daly_bms_get_cell_voltages s2 (rx 3)).1
    let s4 := (daly_bms_get_cell_temperature s3 (rx 4)).1
    let s5 := (daly_bms_get_cell_balance_state s4 (rx 5)).1
    let s6 := (daly_bms_get_failure_codes s5 (rx 6)).1
    let s7 := (daly_bms_get_status_info s6 (rx 7)).1
    let s8 := (daly_bms_get_discharge_charge_mos_status s7 (rx 8)).1
    (daly_bms_update_peak_values s8, true,
      [DALY_CMD_VOUT_IOUT_SOC, DALY_CMD_MIN_MAX_CELL_VOLTAGE, DALY_CMD_MIN_MAX_TEMPERATURE,
       DALY_CMD_CELL_VOLTAGES, DALY_CMD_CELL_TEMPERATURE, DALY_CMD_CELL_BALANCE_STATE,
       DALY_CMD_FAILURE_CODES, DALY_CMD_STATUS_INFO, DALY_CMD_DISCHARGE_CHARGE_MOS_STATUS])

/-! ## Daly transmit path (`daly_bms_send_command` and the MOSFET setters)

The 13-byte transmit buffer is modelled as a `List Nat`; after
`daly_bms_init` it holds `A5 01` followed by eleven zero bytes. -/

def dalyTxInit : List Nat := [0xA5, 0x01, 0, 0, 0, 0, 0, 0, 0, 0, 0, 0, 0]

/-- `daly_bms_send_command`: sets byte 2 to the command, zero-fills bytes
3..11, writes the truncated-sum checksum into byte 12, and transmits the
buffer.  Returns the transmitted 13 bytes. -/
def daly_bms_send_command (tx : List Nat) (cmd : Nat) : List Nat :=
  let tx1 := tx.set 2 cmd
  let tx2 := (List.range 9).foldl (fun t i => t.set (3 + i) 0) tx1
  tx2.set 12 (dalyChecksum tx2)

/-- `daly_bms_set_discharge_mos`: zero-fills bytes 3..11, places the
switch flag at byte 3, then calls `daly_bms_send_command` with command
0xD9.  Returns the transmitted frame. -/
def daly_bms_set_discharge_mos (tx : List Nat) (sw : Bool) : List Nat :=
  let tx1 := (List.range 9).foldl (fun t i => t.set (3 + i) 0) tx
  let tx2 := tx1.set 3 (if sw then 1 else 0)
  daly_bms_send_command tx2 DALY_CMD_DISCHRG_FET

/-- `daly_bms_set_charge_mos`: same shape as the discharge setter, with
command 0xDA. -/
def daly_bms_set_charge_mos (tx : List Nat) (sw : Bool) : List Nat :=
  let tx1 := (List.range 9).foldl (fun t i => t.set (3 + i) 0) tx
  let tx2 := tx1.set 3 (if sw then 1 else 0)
  daly_bms_send_command tx2 DALY_CMD_CHRG_FET

/-! ## JBD driver (`jbd_bms.c`): constants and data model -/

def JBD_XFER_BUFFER_LENGTH : Nat := 256
def JBD_MAX_CELLS : Nat := 48
def JBD_MAX_TEMP_SENSORS : Nat := 16
def JBD_PKT_START : Nat := 0xDD
def JBD_PKT_END : Nat := 0x77
def JBD_CMD_READ : Nat := 0xA5
def JBD_CMD_WRITE : Nat := 0x5A
def JBD_CMD_HWINFO : Nat := 0x03
def JBD_CMD_CELLINFO : Nat := 0x04

/-- `jbd_protect_t`: the thirteen protection flags decoded from the
16-bit protection word. -/
structure JbdProtect where
  sover : Bool
  sunder : Bool
  gover : Bool
  gunder : Bool
  chitemp : Bool
  clowtemp : Bool
  dhitemp : Bool
  dlowtemp : Bool
  cover : Bool
  cunder : Bool
  shorted : Bool
  ic : Bool
  mos : Bool

/-- `jbd_bms_data_t`. -/
structure JbdData where
  packVoltage : ℚ
  packCurrent : ℚ
  packSOC : ℚ
  power : ℚ
  capacity : ℚ
  fullCapacity : ℚ
  pctCapacity : Nat
  cellCount : ℤ
  cellVoltages : Nat → ℚ
  temperatureCount : ℤ
  temperatures : Nat → ℚ
  minCellVoltage : ℚ
  maxCellVoltage : ℚ
  minCellNumber : ℤ
  maxCellNumber : ℤ
  maxTemperature : ℚ
  minTemperature : ℚ
  balanceBits : Nat
  chargingEnabled : Bool
  dischargingEnabled : Bool
  protection : JbdProtect
  peakCurrent : ℚ
  peakPower : ℚ

def jbdZeroProtect : JbdProtect where
  sover := false
  sunder := false
  gover := false
  gunder := false
  chitemp := false
  clowtemp := false
  dhitemp := false
  dlowtemp := false
  cover := false
  cunder := false
  shorted := false
  ic := false
  mos := false

/-- The `calloc`-zeroed handle after `jbd_bms_init` (which sets the two
peak fields to `0.0f`, already zero). -/
def jbdZeroData : JbdData where
  packVoltage := 0
  packCurrent := 0
  packSOC := 0
  power := 0
  capacity := 0
  fullCapacity := 0
  pctCapacity := 0
  cellCount := 0
  cellVoltages := fun _ => 0
  temperatureCount := 0
  temperatures := fun _ => 0
  minCellVoltage := 0
  maxCellVoltage := 0
  minCellNumber := 0
  maxCellNumber := 0
  maxTemperature := 0
  minTemperature := 0
  balanceBits := 0
  chargingEnabled := false
  dischargingEnabled := false
  protection := jbdZeroProtect
  peakCurrent := 0
  peakPower := 0

/-! ## JBD frame codec (`jbd_crc`, `jbd_verify`, `jbd_cmd`) -/

/-- `jbd_crc`: a `uint16_t` initialized to 0 from which every byte is
subtracted — the 16-bit two's complement of the byte sum. -/
def jbd_crc (l : List Nat) : Nat := (65536 - l.sum % 65536) % 65536

/-- `jbd_verify buf reg`: validates a received frame in the response
layout `start | register | status | length | data | crc(2) | end`.
`buf.length` plays the role of the `len` argument (the byte count
returned by the UART read); the CRC is recomputed over the status byte,
the length byte and the data. -/
def jbd_verify (buf : List Nat) (reg : Nat) : Bool :=
  if buf.length < 7 then false
  else if byteAt buf 0 != JBD_PKT_START then false
  else if byteAt buf 1 != reg then false
  else
    let dataLength := byteAt buf 3
    if dataLength != buf.length - 7 then false
    else
      let myCrc := jbd_crc ((buf.drop 2).take (dataLength + 2))
      let pktCrc := u16At buf (4 + dataLength) (5 + dataLength)
      if myCrc != pktCrc then false
      else byteAt buf (6 + dataLength) == JBD_PKT_END

/-- `jbd_cmd action reg data`: builds a command frame
`start | action | register | length | data | crc(2) | end` in the
256-byte transmit buffer.  Read commands carry no data.  Returns `none`
when the guard `4 + data_len > 256` rejects the payload (the source
returns -1), otherwise the frame bytes.  The CRC is computed over the
register byte, the length byte and the data. -/
def jbd_cmd (action reg : Nat) (data0 : List Nat) : Option (List Nat) :=
  let data := if action == JBD_CMD_READ then [] else data0
  let dataLen := data.length
  if 4 + dataLen > JBD_XFER_BUFFER_LENGTH then none
  else
    let crc := jbd_crc ([reg, dataLen] ++ data)
    some ([JBD_PKT_START, action, reg, dataLen] ++ data ++
      [crc / 256 % 256, crc % 256, JBD_PKT_END])

/-! ## JBD register decoders (`jbd_parse_hwinfo`, `jbd_parse_cellinfo`)

Both receive the payload slice (`&rx_buffer[4]`) and the claimed payload
length (`rx_buffer[3]`). -/

/-- `jbd_parse_protection`. -/
def jbd_parse_protection (d : JbdData) (protectBits : Nat) : JbdData :=
  { d with protection :=
    { sover := protectBits.testBit 0
      sunder := protectBits.testBit 1
      gover := protectBits.testBit 2
      gunder := protectBits.testBit 3
      chitemp := protectBits.testBit 4
      clowtemp := protectBits.testBit 5
      dhitemp := protectBits.testBit 6
      dlowtemp := protectBits.testBit 7
      cover := protectBits.testBit 8
      cunder := protectBits.testBit 9
      shorted := protectBits.testBit 10
      ic := protectBits.testBit 11
      mos := protectBits.testBit 12 } }

/-- One iteration of the temperature loop of `jbd_parse_hwinfo`: guarded
by `23 + i*2 + 1 < len`, converts tenths-of-Kelvin to Celsius and tracks
the running min/max. -/
def jbdTempStep (data : List Nat) (len : ℤ) (d : JbdData) (i : Nat) : JbdData :=
  if (23 + (i : ℤ) * 2 + 1) < len then
    let t : ℚ := ((toInt16 (u16At data (23 + i * 2) (23 + i * 2 + 1)) - 2731 : ℤ) : ℚ) / 10
    let d1 := { d with temperatures := Function.update d.temperatures i t }
    let d2 :=
      if t < d1.minTemperature then { d1 with minTemperature := t } else d1
    if t > d2.maxTemperature then { d2 with maxTemperature := t } else d2
  else d

/-- `jbd_parse_hwinfo`: returns the state unchanged when `len < 23`,
otherwise decodes pack measurements, balance bits, protection word, FET
bits, the (unclipped) cell and temperature counts, and the temperature
array with running min/max starting from the sentinels 1000 / -1000. -/
def jbd_parse_hwinfo (d : JbdData) (data : List Nat) (len : ℤ) : JbdData :=
  if len < 23 then d
  else
    let voltage : ℚ := (u16At data 0 1 : ℚ) / 100
    let current : ℚ := (toInt16 (u16At data 2 3) : ℚ) / 100
    let d1 := { d with
      packVoltage := voltage
      packCurrent := current
      capacity := (u16At data 4 5 : ℚ) / 100
      fullCapacity := (u16At data 6 7 : ℚ) / 100
      pctCapacity := byteAt data 19
      packSOC := (byteAt data 19 : ℚ)
      power := voltage * current
      balanceBits := u16At data 12 13 + u16At data 14 15 * 2 ^ 16 }
    let d2 := jbd_parse_protection d1 (u16At data 16 17)
    let fetBits := byteAt data 20
    let d3 := { d2 with
      chargingEnabled := fetBits.testBit 0
      dischargingEnabled := fetBits.testBit 1
      cellCount := (byteAt data 21 : ℤ)
      temperatureCount := (byteAt data 22 : ℤ)
      minTemperature := 1000
      maxTemperature := -1000 }
    let n := min d3.temperatureCount.toNat JBD_MAX_TEMP_SENSORS
    (List.range n).foldl (jbdTempStep data len) d3

/-- One iteration of the cell loop of `jbd_parse_cellinfo`: guarded by
`(i*2) + 1 < len`, stores the cell voltage and tracks the running
min/max with their 1-based cell numbers. -/
def jbdCellStep (data : List Nat) (len : ℤ) (d : JbdData) (i : Nat) : JbdData :=
  if ((i : ℤ) * 2 + 1) < len then
    let v : ℚ := (u16At data (i * 2) (i * 2 + 1) : ℚ) / 1000
    let d1 := { d with cellVoltages := Function.update d.cellVoltages i v }
    let d2 :=
      if v < d1.minCellVoltage then
        { d1 with minCellVoltage := v, minCellNumber := (i : ℤ) + 1 }
      else d1
    if v > d2.maxCellVoltage then
      { d2 with maxCellVoltage := v, maxCellNumber := (i : ℤ) + 1 }
    else d2
  else d

/-- `jbd_parse_cellinfo`: returns the state unchanged when
`len < cellCount * 2`, otherwise resets the min/max trackers to the
sentinels 5.0 / 0.0 (cell numbers 0) and folds the cell loop over
`i < cellCount && i < JBD_MAX_CELLS`. -/
def jbd_parse_cellinfo (d : JbdData) (data : List Nat) (len : ℤ) : JbdData :=
  if len < d.cellCount * 2 then d
  else
    let d1 := { d with
      minCellVoltage := 5
      maxCellVoltage := 0
      minCellNumber := 0
      maxCellNumber := 0 }
    let n := min d.cellCount.toNat JBD_MAX_CELLS
    (List.range n).foldl (jbdCellStep data len) d1

/-- `jbd_bms_get_cell_voltage_delta` (interface getter): the difference
of the stored max and min cell voltages. -/
def jbd_bms_get_cell_voltage_delta (d : JbdData) : ℚ :=
  d.maxCellVoltage - d.minCellVoltage

/-- `jbd_update_peak_values` — same shape as the Daly peak tracker. -/
def jbd_update_peak_values (d : JbdData) : JbdData :=
  let absCurrent := |d.packCurrent|
  let d1 :=
    if absCurrent > d.peakCurrent then { d with peakCurrent := absCurrent } else d
  let absPower := |d1.power|
  if absPower > d1.peakPower then { d1 with peakPower := absPower } else d1

/-! ## JBD polling (`jbd_bms_read_data`, `jbd_bms_update`)

The retry loop `retries = 3; while (retries-- > 0) { read; if (ok) break;
delay(50); }` is modelled with the retries counter as a signed integer,
exactly as in the source: the condition reads the counter and then
decrements it, so after a break on attempt k (1-based) the counter holds
`3 - k`, and after three failed attempts it holds `-1`.  `recv i` is the
byte sequence delivered by the i-th UART read of the cycle. -/

/-- One receive-retry loop.  Returns the (possibly parsed) state, the
final value of the `retries` counter, and the next global read index.
The fuel argument (called with 4) only bounds the recursion; the loop
always exits within three iterations because the counter starts at 3. -/
def jbdRecvLoop (recv : Nat → List Nat) (reg : Nat)
    (parse : JbdData → List Nat → ℤ → JbdData) :
    JbdData → ℤ → Nat → Nat → JbdData × ℤ × Nat
  | d, r, i, 0 => (d, r, i)
  | d, r, i, fuel + 1 =>
    if 0 < r then
      let buf := recv i
      if buf.length > 0 ∧ jbd_verify buf reg then
        (parse d (buf.drop 4) (byteAt buf 3 : ℤ), r - 1, i + 1)
      else jbdRecvLoop recv reg parse d (r - 1) (i + 1) fuel
    else (d, r - 1, i)

/-- `jbd_bms_read_data`: HWINFO step then CELLINFO step, each with the
3-attempt receive loop; the HWINFO step aborts the poll when its final
`retries` value is ≤ 0, and the poll reports success iff the CELLINFO
step's final `retries` value is > 0.  Returns the state, the reported
success, and the number of UART reads performed. -/
def jbd_bms_read_data (d : JbdData) (recv : Nat → List Nat) :
    JbdData × Bool × Nat :=
  if (jbd_cmd JBD_CMD_READ JBD_CMD_HWINFO []).isNone then (d, false, 0)
  else
    let h := jbdRecvLoop recv JBD_CMD_HWINFO jbd_parse_hwinfo d 3 0 4
    if h.2.1 ≤ 0 then (h.1, false, h.2.2)
    else if (jbd_cmd JBD_CMD_READ JBD_CMD_CELLINFO []).isNone then (h.1, false, h.2.2)
    else
      let c := jbdRecvLoop recv JBD_CMD_CELLINFO jbd_parse_cellinfo h.1 3 h.2.2 4
      (c.1, decide (0 < c.2.1), c.2.2)

/-- `jbd_bms_update`: runs `jbd_bms_read_data` and updates the peak
values only when it reported success. -/
def jbd_bms_update (d : JbdData) (recv : Nat → List Nat) : JbdData × Bool :=
  let r := jbd_bms_read_data d recv
  if r.2.1 then (jbd_update_peak_values r.1, true) else (r.1, false)

/-! ## Concrete test frames -/

/-- The spec's scenario response for command 0x90:
`A5 90 00 00 01 F4 00 00 00 32 01 F4 <csum>` with its correct
truncated-sum checksum 0x51. -/
def frame90 : List Nat :=
  [0xA5, 0x90, 0x00, 0x00, 0x01, 0xF4, 0x00, 0x00, 0x00, 0x32, 0x01, 0xF4, 0x51]

/-- A checksum-valid 0x91 response carrying max cell voltage 1000 mV
(cell 1) and min cell voltage 2000 mV (cell 2). -/
def frame91 : List Nat :=
  [0xA5, 0x01, 0x91, 0x08, 0x03, 0xE8, 0x01, 0x07, 0xD0, 0x02, 0x00, 0x00, 0x04]

/-- A checksum-valid 0x94 response reporting 100 cells and 2 temperature
sensors. -/
def frame94 : List Nat :=
  [0xA5, 0x01, 0x94, 0x08, 100, 2, 0, 0, 0, 0, 0, 0, 0xA8]

/-- Build a frame in the JBD response layout with a correct CRC (test
fixture; the functions under verification are `jbd_verify`/`jbd_cmd`). -/
def mkJbdResponse (reg status : Nat) (data : List Nat) : List Nat :=
  let crc := jbd_crc ([status, data.length] ++ data)
  [JBD_PKT_START, reg, status, data.length] ++ data ++
    [crc / 256 % 256, crc % 256, JBD_PKT_END]

/-- A 25-byte HWINFO payload: SOC byte 80, FET bits 3, 4 cells, 1
temperature sensor reading 2901 (17.0 °C). -/
def jbdHwPayload : List Nat :=
  [0, 0, 0, 0, 0, 0, 0, 0, 0, 0, 0, 0, 0, 0, 0, 0, 0, 0, 0, 80, 3, 4, 1, 0x0B, 0x55]

/-- The same payload with the cell-count byte set to 200. -/
def jbdHwPayload200 : List Nat :=
  [0, 0, 0, 0, 0, 0, 0, 0, 0, 0, 0, 0, 0, 0, 0, 0, 0, 0, 0, 80, 3, 200, 1, 0x0B, 0x55]

/-- A CRC-valid HWINFO response frame around `jbdHwPayload`. -/
def jbdHwFrame : List Nat := mkJbdResponse JBD_CMD_HWINFO 0 jbdHwPayload

/-- A CRC-valid CELLINFO response whose 2-byte payload is shorter than
`cellCount * 2 = 8` for the 4-cell pack announced by `jbdHwFrame`. -/
def jbdShortCellFrame : List Nat := mkJbdResponse JBD_CMD_CELLINFO 0 [0x0C, 0x1C]

/-- Receive oracle: first read delivers the HWINFO frame, second read the
truncated CELLINFO frame. -/
def recvTrunc : Nat → List Nat :=
  fun i => if i = 0 then jbdHwFrame else if i = 1 then jbdShortCellFrame else []

/-- Receive oracle: nothing arrives on the first two reads, the valid
HWINFO frame arrives on the third. -/
def recvThird : Nat → List Nat := fun i => if i = 2 then jbdHwFrame else []

/-- Receive oracle for the Daly driver: only the first read delivers a
valid frame; every later read times out. -/
def rxFirstOnly : Nat → List Nat := fun i => if i = 0 then frame90 else []

/-- Receive oracle for the Daly driver: every read delivers `frame90`
(checksum-valid, so every step decodes). -/
def dalyAllValid : Nat → List Nat := fun _ => frame90

/-- Modelled from the spec: the command sequence §4.3 documents for the
vendor-A poll (`VOUT_IOUT_SOC, MIN_MAX_CELL_VOLTAGE, MIN_MAX_TEMPERATURE,
STATUS_INFO, CELL_VOLTAGES, CELL_TEMPERATURE, CELL_BALANCE_STATE,
FAILURE_CODES, DISCHARGE_CHARGE_MOS_STATUS`). -/
def specDalyCommandSequence : List Nat :=
  [DALY_CMD_VOUT_IOUT_SOC, DALY_CMD_MIN_MAX_CELL_VOLTAGE, DALY_CMD_MIN_MAX_TEMPERATURE,
   DALY_CMD_STATUS_INFO, DALY_CMD_CELL_VOLTAGES, DALY_CMD_CELL_TEMPERATURE,
   DALY_CMD_CELL_BALANCE_STATE, DALY_CMD_FAILURE_CODES, DALY_CMD_DISCHARGE_CHARGE_MOS_STATUS]

/-- A JBD state whose previous HWINFO poll announced a single cell. -/
def jbdOneCell : JbdData := { jbdZeroData with cellCount := 1 }

/-- A JBD state whose previous HWINFO poll announced two cells. -/
def jbdTwoCells : JbdData := { jbdZeroData with cellCount := 2 }

/-- A CELLINFO payload carrying cells 3100 mV and 3000 mV. -/
def cellData4 : List Nat := [0x0C, 0x1C, 0x0B, 0xB8]

/-- The cell-statistics contract for a decoded state `G` over the first
`k` cells whose decoded voltages are `v 0, …, v (k-1)`: the stored array
matches, the stored minimum (maximum) is attained at the 1-based
min/max cell number, that cell number points at the first attaining
index, and the stored min/max bound every decoded voltage. -/
def CellStats (v : Nat → ℚ) (k : Nat) (G : JbdData) : Prop :=
  (∀ i, i < k → G.cellVoltages i = v i) ∧
  1 ≤ G.minCellNumber ∧ G.minCellNumber ≤ (k : ℤ) ∧
  G.minCellVoltage = v (G.minCellNumber - 1).toNat ∧
  (∀ j, j < k → G.minCellVoltage ≤ v j) ∧
  (∀ j : Nat, (j : ℤ) < G.minCellNumber - 1 → G.minCellVoltage < v j) ∧
  1 ≤ G.maxCellNumber ∧ G.maxCellNumber ≤ (k : ℤ) ∧
  G.maxCellVoltage = v (G.maxCellNumber - 1).toNat ∧
  (∀ j, j < k → v j ≤ G.maxCellVoltage) ∧
  (∀ j : Nat, (j : ℤ) < G.maxCellNumber - 1 → v j < G.maxCellVoltage)

/-! ## Claim theorems (concrete evaluations) -/

/-- C4 counterexample: decoding the spec's 0x90 scenario frame does not
yield current 0.0 A and SOC 50.0 % — bytes 8-9 hold 0x0032 = 50 (→ 5.0 A)
and bytes 10-11 hold 0x01F4 = 500, which ÷100 gives 5.0 %, not 50.0 %. -/
theorem C4_counterexample :
    ¬((daly_bms_get_pack_measurements dalyZeroState frame90).1.data.packVoltage = 50 ∧
      (daly_bms_get_pack_measurements dalyZeroState frame90).1.data.packCurrent = 0 ∧
      (daly_bms_get_pack_measurements dalyZeroState frame90).1.data.packSOC = 50) := by
  norm_num [daly_bms_update, daly_bms_get_pack_measurements, daly_bms_get_min_max_cell_voltage,
    daly_bms_get_pack_temp, daly_bms_get_status_info, daly_bms_get_cell_voltages,
    daly_bms_get_cell_temperature, daly_bms_get_cell_balance_state, daly_bms_get_failure_codes,
    daly_bms_get_discharge_charge_mos_status, daly_bms_update_peak_values,
    dalyCellVoltageLoop, dalyCellTempLoop, dalyBalanceLoop,
    dalyValidFrame, dalyChecksum, frame90, frame91, frame94, rxFirstOnly, dalyAllValid,
    dalyZeroState, dalyZeroData, specDalyCommandSequence,
    byteAt, u16At, toInt16, toInt8, DALY_XFER_BUFFER_LENGTH,
    DALY_CMD_VOUT_IOUT_SOC, DALY_CMD_MIN_MAX_CELL_VOLTAGE, DALY_CMD_MIN_MAX_TEMPERATURE,
    DALY_CMD_CELL_VOLTAGES, DALY_CMD_CELL_TEMPERATURE, DALY_CMD_CELL_BALANCE_STATE,
    DALY_CMD_FAILURE_CODES, DALY_CMD_STATUS_INFO, DALY_CMD_DISCHARGE_CHARGE_MOS_STATUS]

/-- C4 (amended): under the code's scaling (voltage bytes 4-5 ÷10,
current bytes 8-9 signed ÷10, SOC bytes 10-11 ÷100) the scenario frame
decodes to 50.0 V, 5.0 A, 5.0 % and derived power 250 W, and the step
reports success. -/
theorem C4_theorem :
    (daly_bms_get_pack_measurements dalyZeroState frame90).2 = true ∧
    (daly_bms_get_pack_measurements dalyZeroState frame90).1.data.packVoltage = 50 ∧
    (daly_bms_get_pack_measurements dalyZeroState frame90).1.data.packCurrent = 5 ∧
    (daly_bms_get_pack_measurements dalyZeroState frame90).1.data.packSOC = 5 ∧
    (daly_bms_get_pack_measurements dalyZeroState frame90).1.data.power = 250 := by
  norm_num [daly_bms_update, daly_bms_get_pack_measurements, daly_bms_get_min_max_cell_voltage,
    daly_bms_get_pack_temp, daly_bms_get_status_info, daly_bms_get_cell_voltages,
    daly_bms_get_cell_temperature, daly_bms_get_cell_balance_state, daly_bms_get_failure_codes,
    daly_bms_get_discharge_charge_mos_status, daly_bms_update_peak_values,
    dalyCellVoltageLoop, dalyCellTempLoop, dalyBalanceLoop,
    dalyValidFrame, dalyChecksum, frame90, frame91, frame94, rxFirstOnly, dalyAllValid,
    dalyZeroState, dalyZeroData, specDalyCommandSequence,
    byteAt, u16At, toInt16, toInt8, DALY_XFER_BUFFER_LENGTH,
    DALY_CMD_VOUT_IOUT_SOC, DALY_CMD_MIN_MAX_CELL_VOLTAGE, DALY_CMD_MIN_MAX_TEMPERATURE,
    DALY_CMD_CELL_VOLTAGES, DALY_CMD_CELL_TEMPERATURE, DALY_CMD_CELL_BALANCE_STATE,
    DALY_CMD_FAILURE_CODES, DALY_CMD_STATUS_INFO, DALY_CMD_DISCHARGE_CHARGE_MOS_STATUS]

/-- C8 (code bug): the MOSFET setters place the switch flag at byte 3,
but `daly_bms_send_command` zero-fills bytes 3..11 afterwards, so the
transmitted 13-byte frame always carries 0x00 at byte 3 and is identical
for `sw = true` and `sw = false`. -/
theorem C8_code_bug :
    byteAt (daly_bms_set_discharge_mos dalyTxInit true) 3 = 0 ∧
    byteAt (daly_bms_set_charge_mos dalyTxInit true) 3 = 0 ∧
    daly_bms_set_discharge_mos dalyTxInit true = daly_bms_set_discharge_mos dalyTxInit false ∧
    daly_bms_set_charge_mos dalyTxInit true = daly_bms_set_charge_mos dalyTxInit false ∧
    (daly_bms_set_discharge_mos dalyTxInit true).length = 13 ∧
    dalyValidFrame (daly_bms_set_discharge_mos dalyTxInit true) = true := by
  norm_num [daly_bms_set_discharge_mos, daly_bms_set_charge_mos, daly_bms_send_command,
    dalyTxInit, dalyValidFrame, dalyChecksum, byteAt, DALY_XFER_BUFFER_LENGTH,
    DALY_CMD_DISCHRG_FET, DALY_CMD_CHRG_FET, List.range_succ]

/-- C1 counterexample: with a valid first (0x90) frame and every later
read failing, `daly_bms_update` reports success although the second
sub-read failed and the min/max cell-voltage fields were never
populated. -/
theorem C1_counterexample :
    (daly_bms_update dalyZeroState rxFirstOnly).2.1 = true ∧
    dalyValidFrame (rxFirstOnly 1) = false ∧
    (daly_bms_update dalyZeroState rxFirstOnly).1.data.maxCellmV =
      dalyZeroState.data.maxCellmV := by
  norm_num [daly_bms_update, daly_bms_get_pack_measurements, daly_bms_get_min_max_cell_voltage,
    daly_bms_get_pack_temp, daly_bms_get_status_info, daly_bms_get_cell_voltages,
    daly_bms_get_cell_temperature, daly_bms_get_cell_balance_state, daly_bms_get_failure_codes,
    daly_bms_get_discharge_charge_mos_status, daly_bms_update_peak_values,
    dalyCellVoltageLoop, dalyCellTempLoop, dalyBalanceLoop,
    dalyValidFrame, dalyChecksum, frame90, frame91, frame94, rxFirstOnly, dalyAllValid,
    dalyZeroState, dalyZeroData, specDalyCommandSequence,
    byteAt, u16At, toInt16, toInt8, DALY_XFER_BUFFER_LENGTH,
    DALY_CMD_VOUT_IOUT_SOC, DALY_CMD_MIN_MAX_CELL_VOLTAGE, DALY_CMD_MIN_MAX_TEMPERATURE,
    DALY_CMD_CELL_VOLTAGES, DALY_CMD_CELL_TEMPERATURE, DALY_CMD_CELL_BALANCE_STATE,
    DALY_CMD_FAILURE_CODES, DALY_CMD_STATUS_INFO, DALY_CMD_DISCHARGE_CHARGE_MOS_STATUS]

/-- C3 counterexample: a full vendor-A poll sends
0x90 0x91 0x92 0x95 0x96 0x97 0x98 0x94 0x93, which is not the
documented sequence; in particular STATUS_INFO (0x94) is sent after
CELL_VOLTAGES (0x95) and CELL_TEMPERATURE (0x96). -/
theorem C3_counterexample :
    (daly_bms_update dalyZeroState dalyAllValid).2.2 =
      [DALY_CMD_VOUT_IOUT_SOC, DALY_CMD_MIN_MAX_CELL_VOLTAGE, DALY_CMD_MIN_MAX_TEMPERATURE,
       DALY_CMD_CELL_VOLTAGES, DALY_CMD_CELL_TEMPERATURE, DALY_CMD_CELL_BALANCE_STATE,
       DALY_CMD_FAILURE_CODES, DALY_CMD_STATUS_INFO, DALY_CMD_DISCHARGE_CHARGE_MOS_STATUS] ∧
    (daly_bms_update dalyZeroState dalyAllValid).2.2 ≠ specDalyCommandSequence ∧
    ((daly_bms_update dalyZeroState dalyAllValid).2.2.indexOf DALY_CMD_CELL_VOLTAGES <
      (daly_bms_update dalyZeroState dalyAllValid).2.2.indexOf DALY_CMD_STATUS_INFO) ∧
    ((daly_bms_update dalyZeroState dalyAllValid).2.2.indexOf DALY_CMD_CELL_TEMPERATURE <
      (daly_bms_update dalyZeroState dalyAllValid).2.2.indexOf DALY_CMD_STATUS_INFO) := by
  norm_num [daly_bms_update, daly_bms_get_pack_measurements, daly_bms_get_min_max_cell_voltage,
    daly_bms_get_pack_temp, daly_bms_get_status_info, daly_bms_get_cell_voltages,
    daly_bms_get_cell_temperature, daly_bms_get_cell_balance_state, daly_bms_get_failure_codes,
    daly_bms_get_discharge_charge_mos_status, daly_bms_update_peak_values,
    dalyCellVoltageLoop, dalyCellTempLoop, dalyBalanceLoop,
    dalyValidFrame, dalyChecksum, frame90, frame91, frame94, rxFirstOnly, dalyAllValid,
    dalyZeroState, dalyZeroData, specDalyCommandSequence,
    byteAt, u16At, toInt16, toInt8, DALY_XFER_BUFFER_LENGTH,
    DALY_CMD_VOUT_IOUT_SOC, DALY_CMD_MIN_MAX_CELL_VOLTAGE, DALY_CMD_MIN_MAX_TEMPERATURE,
    DALY_CMD_CELL_VOLTAGES, DALY_CMD_CELL_TEMPERATURE, DALY_CMD_CELL_BALANCE_STATE,
    DALY_CMD_FAILURE_CODES, DALY_CMD_STATUS_INFO, DALY_CMD_DISCHARGE_CHARGE_MOS_STATUS]

/-- C2 (code bug): a HWINFO frame that validates on the third and last
attempt is parsed (the cell count is stored) but the poll still reports
failure, because the loop exits with `retries == 0` and the code treats
`retries <= 0` as exhaustion; and three failed attempts also report
failure after exactly 3 reads. -/
theorem C2_code_bug :
    jbd_verify (recvThird 2) JBD_CMD_HWINFO = true ∧
    (jbd_bms_read_data jbdZeroData recvThird).2.1 = false ∧
    (jbd_bms_read_data jbdZeroData recvThird).2.2 = 3 ∧
    (jbd_bms_read_data jbdZeroData recvThird).1.cellCount = 4 ∧
    (jbd_bms_read_data jbdZeroData (fun _ => [])).2.1 = false ∧
    (jbd_bms_read_data jbdZeroData (fun _ => [])).2.2 = 3 := by
  norm_num [jbd_bms_read_data, jbdRecvLoop, jbd_verify, jbd_cmd, jbd_crc, jbd_parse_hwinfo,
    jbd_parse_cellinfo, jbd_parse_protection, jbdTempStep, jbdCellStep, recvTrunc, recvThird,
    jbdHwFrame, jbdShortCellFrame, mkJbdResponse, jbdHwPayload, jbdHwPayload200,
    jbdZeroData, jbdZeroProtect, jbdOneCell,
    byteAt, u16At, toInt16, List.range_succ, Function.update,
    JBD_XFER_BUFFER_LENGTH, JBD_MAX_CELLS, JBD_MAX_TEMP_SENSORS, JBD_PKT_START, JBD_PKT_END,
    JBD_CMD_READ, JBD_CMD_HWINFO, JBD_CMD_CELLINFO]

/-- C7 counterexample: a CRC-valid CELLINFO response whose payload (2
bytes) is shorter than `cellCount * 2 = 8` does not fail the poll:
`jbd_bms_read_data` reports success while the cell-voltage statistics
were never written. -/
theorem C7_counterexample :
    (jbd_bms_read_data jbdZeroData recvTrunc).2.1 = true ∧
    (jbd_bms_read_data jbdZeroData recvTrunc).1.cellCount = 4 ∧
    ((byteAt (recvTrunc 1) 3 : ℤ) <
      (jbd_bms_read_data jbdZeroData recvTrunc).1.cellCount * 2) ∧
    (jbd_bms_read_data jbdZeroData recvTrunc).1.minCellVoltage = 0 ∧
    (jbd_bms_read_data jbdZeroData recvTrunc).1.maxCellVoltage = 0 := by
  norm_num [jbd_bms_read_data, jbdRecvLoop, jbd_verify, jbd_cmd, jbd_crc, jbd_parse_hwinfo,
    jbd_parse_cellinfo, jbd_parse_protection, jbdTempStep, jbdCellStep, recvTrunc, recvThird,
    jbdHwFrame, jbdShortCellFrame, mkJbdResponse, jbdHwPayload, jbdHwPayload200,
    jbdZeroData, jbdZeroProtect, jbdOneCell,
    byteAt, u16At, toInt16, List.range_succ, Function.update,
    JBD_XFER_BUFFER_LENGTH, JBD_MAX_CELLS, JBD_MAX_TEMP_SENSORS, JBD_PKT_START, JBD_PKT_END,
    JBD_CMD_READ, JBD_CMD_HWINFO, JBD_CMD_CELLINFO]

/-- C6 counterexample: encoding a read of HWINFO with `jbd_cmd` and
verifying the resulting bytes against that register fails, because
`jbd_cmd` writes the action byte where `jbd_verify` expects the
register. -/
theorem C6_counterexample :
    (jbd_cmd JBD_CMD_READ JBD_CMD_HWINFO []).isSome = true ∧
    jbd_verify ((jbd_cmd JBD_CMD_READ JBD_CMD_HWINFO []).getD []) JBD_CMD_HWINFO = false := by
  norm_num [jbd_bms_read_data, jbdRecvLoop, jbd_verify, jbd_cmd, jbd_crc, jbd_parse_hwinfo,
    jbd_parse_cellinfo, jbd_parse_protection, jbdTempStep, jbdCellStep, recvTrunc, recvThird,
    jbdHwFrame, jbdShortCellFrame, mkJbdResponse, jbdHwPayload, jbdHwPayload200,
    jbdZeroData, jbdZeroProtect, jbdOneCell,
    byteAt, u16At, toInt16, List.range_succ, Function.update,
    JBD_XFER_BUFFER_LENGTH, JBD_MAX_CELLS, JBD_MAX_TEMP_SENSORS, JBD_PKT_START, JBD_PKT_END,
    JBD_CMD_READ, JBD_CMD_HWINFO, JBD_CMD_CELLINFO]

/-- C9 counterexample: a valid STATUS_INFO frame announcing 100 cells is
stored as `numberOfCells = 100 > 48`, and a valid HWINFO payload
announcing 200 cells is stored as `cellCount = 200 > 48` — neither
decoder clips the stored count. -/
theorem C9_counterexample :
    (daly_bms_get_status_info dalyZeroState frame94).2 = true ∧
    (daly_bms_get_status_info dalyZeroState frame94).1.data.numberOfCells = 100 ∧
    ¬((daly_bms_get_status_info dalyZeroState frame94).1.data.numberOfCells ≤ 48) ∧
    (jbd_parse_hwinfo jbdZeroData jbdHwPayload200 25).cellCount = 200 ∧
    ¬((jbd_parse_hwinfo jbdZeroData jbdHwPayload200 25).cellCount ≤ 48) := by
  norm_num [daly_bms_update, daly_bms_get_pack_measurements, daly_bms_get_min_max_cell_voltage,
    daly_bms_get_pack_temp, daly_bms_get_status_info, daly_bms_get_cell_voltages,
    daly_bms_get_cell_temperature, daly_bms_get_cell_balance_state, daly_bms_get_failure_codes,
    daly_bms_get_discharge_charge_mos_status, daly_bms_update_peak_values,
    dalyCellVoltageLoop, dalyCellTempLoop, dalyBalanceLoop,
    dalyValidFrame, dalyChecksum, frame90, frame91, frame94, rxFirstOnly, dalyAllValid,
    dalyZeroState, dalyZeroData, specDalyCommandSequence,
    byteAt, u16At, toInt16, toInt8, DALY_XFER_BUFFER_LENGTH,
    DALY_CMD_VOUT_IOUT_SOC, DALY_CMD_MIN_MAX_CELL_VOLTAGE, DALY_CMD_MIN_MAX_TEMPERATURE,
    DALY_CMD_CELL_VOLTAGES, DALY_CMD_CELL_TEMPERATURE, DALY_CMD_CELL_BALANCE_STATE,
    DALY_CMD_FAILURE_CODES, DALY_CMD_STATUS_INFO, DALY_CMD_DISCHARGE_CHARGE_MOS_STATUS,
    jbd_parse_hwinfo, jbd_parse_protection, jbdTempStep, jbdHwPayload200, jbdZeroData, jbdZeroProtect,
    List.range_succ, Function.update, JBD_MAX_TEMP_SENSORS]

/-- C10 counterexample: the Daly 0x91 decoder copies min/max straight
from the frame, so a frame carrying max 1000 mV / min 2000 mV yields
`minCellmV > maxCellmV`; and the JBD CELLINFO tracker starts from the
5.0 V sentinel, so a single 6.000 V cell leaves `minCellVoltage = 5`
(not the array minimum 6) with `minCellNumber = 0` (not 1-based argmin
+ 1). -/
theorem C10_counterexample :
    (daly_bms_get_min_max_cell_voltage dalyZeroState frame91).2 = true ∧
    ¬((daly_bms_get_min_max_cell_voltage dalyZeroState frame91).1.data.minCellmV ≤
      (daly_bms_get_min_max_cell_voltage dalyZeroState frame91).1.data.maxCellmV) ∧
    (jbd_parse_cellinfo jbdOneCell [0x17, 0x70] 2).cellVoltages 0 = 6 ∧
    (jbd_parse_cellinfo jbdOneCell [0x17, 0x70] 2).minCellVoltage = 5 ∧
    (jbd_parse_cellinfo jbdOneCell [0x17, 0x70] 2).minCellNumber = 0 := by
  norm_num [daly_bms_update, daly_bms_get_pack_measurements, daly_bms_get_min_max_cell_voltage,
    daly_bms_get_pack_temp, daly_bms_get_status_info, daly_bms_get_cell_voltages,
    daly_bms_get_cell_temperature, daly_bms_get_cell_balance_state, daly_bms_get_failure_codes,
    daly_bms_get_discharge_charge_mos_status, daly_bms_update_peak_values,
    dalyCellVoltageLoop, dalyCellTempLoop, dalyBalanceLoop,
    dalyValidFrame, dalyChecksum, frame90, frame91, frame94, rxFirstOnly, dalyAllValid,
    dalyZeroState, dalyZeroData, specDalyCommandSequence,
    byteAt, u16At, toInt16, toInt8, DALY_XFER_BUFFER_LENGTH,
    DALY_CMD_VOUT_IOUT_SOC, DALY_CMD_MIN_MAX_CELL_VOLTAGE, DALY_CMD_MIN_MAX_TEMPERATURE,
    DALY_CMD_CELL_VOLTAGES, DALY_CMD_CELL_TEMPERATURE, DALY_CMD_CELL_BALANCE_STATE,
    DALY_CMD_FAILURE_CODES, DALY_CMD_STATUS_INFO, DALY_CMD_DISCHARGE_CHARGE_MOS_STATUS,
    jbd_parse_cellinfo, jbdCellStep, jbdOneCell, jbdZeroData, jbdZeroProtect,
    List.range_succ, Function.update, JBD_MAX_CELLS]

/-! ## General theorems -/

/-- C3 (amended): the vendor-A poll sends exactly
`0x90 0x91 0x92 0x95 0x96 0x97 0x98 0x94 0x93` when the first frame
validates (so STATUS_INFO runs after CELL_VOLTAGES and CELL_TEMPERATURE,
which therefore decode with the counts of the previous poll), and only
`0x90` when it does not. -/
theorem C3_theorem (s : DalyState) (rx : Nat → List Nat) :
    (daly_bms_update s rx).2.2 =
      if dalyValidFrame (rx 0) then
        [DALY_CMD_VOUT_IOUT_SOC, DALY_CMD_MIN_MAX_CELL_VOLTAGE, DALY_CMD_MIN_MAX_TEMPERATURE,
         DALY_CMD_CELL_VOLTAGES, DALY_CMD_CELL_TEMPERATURE, DALY_CMD_CELL_BALANCE_STATE,
         DALY_CMD_FAILURE_CODES, DALY_CMD_STATUS_INFO, DALY_CMD_DISCHARGE_CHARGE_MOS_STATUS]
      else [DALY_CMD_VOUT_IOUT_SOC] := by
  cases h : dalyValidFrame (rx 0) <;>
    simp [daly_bms_update, daly_bms_get_pack_measurements, h]

/-- C7 (amended): a CELLINFO payload shorter than `cellCount * 2` makes
the decoder return with the state untouched (so it reads nothing at all,
in particular nothing out of bounds) — but the step is not failed: as
`C7_counterexample` shows, the poll still reports success for the
cycle. -/
theorem C7_theorem (d : JbdData) (data : List Nat) (len : ℤ)
    (h : len < d.cellCount * 2) :
    jbd_parse_cellinfo d data len = d := by
  unfold jbd_parse_cellinfo
  rw [if_pos h]

/-- Witness for `C7_theorem` at a concrete truncated payload. -/
theorem C7_theorem_witness :
    (1 : ℤ) < jbdOneCell.cellCount * 2 ∧
    jbd_parse_cellinfo jbdOneCell [0x17] 1 = jbdOneCell :=
  ⟨by decide, C7_theorem jbdOneCell [0x17] 1 (by decide)⟩

/-- A frame that `jbd_verify` accepts has at least the 7 protocol
bytes. -/
theorem jbd_verify_length_ge {buf : List Nat} {reg : Nat}
    (h : jbd_verify buf reg = true) : 7 ≤ buf.length := by
  by_contra hlen
  unfold jbd_verify at h
  rw [if_pos (by omega)] at h
  exact Bool.false_ne_true h

/-- Unrolling of the 3-attempt receive loop: the final `retries` value is
2, 1 or 0 when the frame of the first, second or third attempt verifies
(and only the verifying attempt is parsed), and -1 when all three
fail. -/
theorem jbdRecvLoop_spec (recv : Nat → List Nat) (reg : Nat)
    (parse : JbdData → List Nat → ℤ → JbdData) (d : JbdData) (i : Nat) :
    jbdRecvLoop recv reg parse d 3 i 4 =
      if jbd_verify (recv i) reg then
        (parse d ((recv i).drop 4) (byteAt (recv i) 3 : ℤ), 2, i + 1)
      else if jbd_verify (recv (i + 1)) reg then
        (parse d ((recv (i + 1)).drop 4) (byteAt (recv (i + 1)) 3 : ℤ), 1, i + 2)
      else if jbd_verify (recv (i + 2)) reg then
        (parse d ((recv (i + 2)).drop 4) (byteAt (recv (i + 2)) 3 : ℤ), 0, i + 3)
      else (d, -1, i + 3) := by
  have step : ∀ (dd : JbdData) (r : ℤ) (j fuel : Nat), 0 < r →
      jbdRecvLoop recv reg parse dd r j (fuel + 1) =
        if jbd_verify (recv j) reg then
          (parse dd ((recv j).drop 4) (byteAt (recv j) 3 : ℤ), r - 1, j + 1)
        else jbdRecvLoop recv reg parse dd (r - 1) (j + 1) fuel := by
    intro dd r j fuel hr
    cases hv : jbd_verify (recv j) reg
    · simp [jbdRecvLoop, hr, hv]
    · have h7 := jbd_verify_length_ge hv
      have hpos : 0 < (recv j).length := by omega
      simp [jbdRecvLoop, hr, hv, hpos]
  rw [step d 3 i 3 (by norm_num)]
  by_cases hv0 : jbd_verify (recv i) reg = true
  · rw [if_pos hv0, if_pos hv0]
    norm_num
  · rw [if_neg hv0, if_neg hv0, show (3 : ℤ) - 1 = 2 by norm_num,
      step d 2 (i + 1) 2 (by norm_num)]
    by_cases hv1 : jbd_verify (recv (i + 1)) reg = true
    · rw [if_pos hv1, if_pos hv1]
      norm_num
    · rw [if_neg hv1, if_neg hv1, show (2 : ℤ) - 1 = 1 by norm_num,
        step d 1 (i + 1 + 1) 1 (by norm_num)]
      by_cases hv2 : jbd_verify (recv (i + 1 + 1)) reg = true
      · rw [if_pos hv2]
        rw [show i + 1 + 1 = i + 2 from rfl] at hv2
        rw [if_pos hv2]
        norm_num
      · rw [if_neg hv2, show (1 : ℤ) - 1 = 0 by norm_num]
        rw [show i + 1 + 1 = i + 2 from rfl] at hv2
        rw [if_neg hv2]
        simp [jbdRecvLoop]

/-- C1 (amended): `daly_bms_update` reports success exactly when the
first (VOUT_IOUT_SOC) frame validates — the return values of the eight
remaining sub-reads are discarded, so a later failed sub-read leaves its
fields stale inside a successful cycle; `jbd_bms_update` reports success
exactly when the HWINFO step verifies on its first or second attempt and
the CELLINFO step verifies on its first or second attempt (a
third-attempt success is discarded by the retry-counter bug recorded
under C2). -/
theorem C1_theorem :
    (∀ (s : DalyState) (rx : Nat → List Nat),
      (daly_bms_update s rx).2.1 = dalyValidFrame (rx 0)) ∧
    (∀ (d : JbdData) (recv : Nat → List Nat),
      (jbd_bms_update d recv).2 =
        ((jbd_verify (recv 0) JBD_CMD_HWINFO || jbd_verify (recv 1) JBD_CMD_HWINFO) &&
         (jbd_verify (recv (if jbd_verify (recv 0) JBD_CMD_HWINFO then 1 else 2))
            JBD_CMD_CELLINFO ||
          jbd_verify (recv (if jbd_verify (recv 0) JBD_CMD_HWINFO then 2 else 3))
            JBD_CMD_CELLINFO))) := by
  constructor
  · intro s rx
    cases h : dalyValidFrame (rx 0) <;>
      simp [daly_bms_update, daly_bms_get_pack_measurements, h]
  · intro d recv
    have hcmd : (jbd_cmd JBD_CMD_READ JBD_CMD_HWINFO []).isNone = false := by decide
    have hcmd2 : (jbd_cmd JBD_CMD_READ JBD_CMD_CELLINFO []).isNone = false := by decide
    simp only [jbd_bms_update, jbd_bms_read_data, hcmd, hcmd2, Bool.false_eq_true,
      if_false, jbdRecvLoop_spec]
    cases hv0 : jbd_verify (recv 0) JBD_CMD_HWINFO
    · cases hv1 : jbd_verify (recv 1) JBD_CMD_HWINFO
      · cases hv2 : jbd_verify (recv 2) JBD_CMD_HWINFO <;>
          norm_num [hv0, hv1, hv2]
      · cases hw2 : jbd_verify (recv 2) JBD_CMD_CELLINFO <;>
          cases hw3 : jbd_verify (recv 3) JBD_CMD_CELLINFO <;>
            cases hw4 : jbd_verify (recv 4) JBD_CMD_CELLINFO <;>
              norm_num [hv0, hv1, hw2, hw3, hw4]
    · cases hw1 : jbd_verify (recv 1) JBD_CMD_CELLINFO <;>
        cases hw2 : jbd_verify (recv 2) JBD_CMD_CELLINFO <;>
          cases hw3 : jbd_verify (recv 3) JBD_CMD_CELLINFO <;>
            norm_num [hv0, hw1, hw2, hw3]

/-! ## Peak tracking (C5) -/

/-- The Daly peak update computes a componentwise `max` with the absolute
sample values, and leaves the samples themselves untouched. -/
theorem daly_bms_update_peak_values_spec (s : DalyState) :
    (daly_bms_update_peak_values s).data.peakCurrent
        = max s.data.peakCurrent |s.data.packCurrent| ∧
    (daly_bms_update_peak_values s).data.peakPower
        = max s.data.peakPower |s.data.power| ∧
    (daly_bms_update_peak_values s).data.packCurrent = s.data.packCurrent ∧
    (daly_bms_update_peak_values s).data.power = s.data.power := by
  unfold daly_bms_update_peak_values
  by_cases h1 : |s.data.packCurrent| > s.data.peakCurrent
  · by_cases h2 : |s.data.power| > s.data.peakPower
    · simp [h1, h2, max_eq_right (le_of_lt h1), max_eq_right (le_of_lt h2)]
    · simp [h1, h2, max_eq_right (le_of_lt h1), max_eq_left (not_lt.mp h2)]
  · by_cases h2 : |s.data.power| > s.data.peakPower
    · simp [h1, h2, max_eq_left (not_lt.mp h1), max_eq_right (le_of_lt h2)]
    · simp [h1, h2, max_eq_left (not_lt.mp h1), max_eq_left (not_lt.mp h2)]

/-- Same characterization for the JBD peak update. -/
theorem jbd_update_peak_values_spec (d : JbdData) :
    (jbd_update_peak_values d).peakCurrent = max d.peakCurrent |d.packCurrent| ∧
    (jbd_update_peak_values d).peakPower = max d.peakPower |d.power| ∧
    (jbd_update_peak_values d).packCurrent = d.packCurrent ∧
    (jbd_update_peak_values d).power = d.power := by
  unfold jbd_update_peak_values
  by_cases h1 : |d.packCurrent| > d.peakCurrent
  · by_cases h2 : |d.power| > d.peakPower
    · simp [h1, h2, max_eq_right (le_of_lt h1), max_eq_right (le_of_lt h2)]
    · simp [h1, h2, max_eq_right (le_of_lt h1), max_eq_left (not_lt.mp h2)]
  · by_cases h2 : |d.power| > d.peakPower
    · simp [h1, h2, max_eq_left (not_lt.mp h1), max_eq_right (le_of_lt h2)]
    · simp [h1, h2, max_eq_left (not_lt.mp h1), max_eq_left (not_lt.mp h2)]

/-- No Daly decode step touches the peak fields. -/
theorem dalyPeaks_pm (s : DalyState) (rx : List Nat) :
    (daly_bms_get_pack_measurements s rx).1.data.peakCurrent = s.data.peakCurrent ∧
    (daly_bms_get_pack_measurements s rx).1.data.peakPower = s.data.peakPower := by
  unfold daly_bms_get_pack_measurements; split <;> exact ⟨rfl, rfl⟩

theorem dalyPeaks_minmax (s : DalyState) (rx : List Nat) :
    (daly_bms_get_min_max_cell_voltage s rx).1.data.peakCurrent = s.data.peakCurrent ∧
    (daly_bms_get_min_max_cell_voltage s rx).1.data.peakPower = s.data.peakPower := by
  unfold daly_bms_get_min_max_cell_voltage; split <;> exact ⟨rfl, rfl⟩

theorem dalyPeaks_temp (s : DalyState) (rx : List Nat) :
    (daly_bms_get_pack_temp s rx).1.data.peakCurrent = s.data.peakCurrent ∧
    (daly_bms_get_pack_temp s rx).1.data.peakPower = s.data.peakPower := by
  unfold daly_bms_get_pack_temp; split <;> exact ⟨rfl, rfl⟩

theorem dalyPeaks_status (s : DalyState) (rx : List Nat) :
    (daly_bms_get_status_info s rx).1.data.peakCurrent = s.data.peakCurrent ∧
    (daly_bms_get_status_info s rx).1.data.peakPower = s.data.peakPower := by
  unfold daly_bms_get_status_info; split <;> exact ⟨rfl, rfl⟩

theorem dalyPeaks_cellv (s : DalyState) (rx : List Nat) :
    (daly_bms_get_cell_voltages s rx).1.data.peakCurrent = s.data.peakCurrent ∧
    (daly_bms_get_cell_voltages s rx).1.data.peakPower = s.data.peakPower := by
  unfold daly_bms_get_cell_voltages; split <;> exact ⟨rfl, rfl⟩

theorem dalyPeaks_cellt (s : DalyState) (rx : List Nat) :
    (daly_bms_get_cell_temperature s rx).1.data.peakCurrent = s.data.peakCurrent ∧
    (daly_bms_get_cell_temperature s rx).1.data.peakPower = s.data.peakPower := by
  unfold daly_bms_get_cell_temperature; split <;> exact ⟨rfl, rfl⟩

theorem dalyPeaks_bal (s : DalyState) (rx : List Nat) :
    (daly_bms_get_cell_balance_state s rx).1.data.peakCurrent = s.data.peakCurrent ∧
    (daly_bms_get_cell_balance_state s rx).1.data.peakPower = s.data.peakPower := by
  unfold daly_bms_get_cell_balance_state; split <;> exact ⟨rfl, rfl⟩

theorem dalyPeaks_fail (s : DalyState) (rx : List Nat) :
    (daly_bms_get_failure_codes s rx).1.data.peakCurrent = s.data.peakCurrent ∧
    (daly_bms_get_failure_codes s rx).1.data.peakPower = s.data.peakPower := by
  unfold daly_bms_get_failure_codes; split <;> exact ⟨rfl, rfl⟩

theorem dalyPeaks_mos (s : DalyState) (rx : List Nat) :
    (daly_bms_get_discharge_charge_mos_status s rx).1.data.peakCurrent = s.data.peakCurrent ∧
    (daly_bms_get_discharge_charge_mos_status s rx).1.data.peakPower = s.data.peakPower := by
  unfold daly_bms_get_discharge_charge_mos_status; split <;> exact ⟨rfl, rfl⟩

/-- The JBD register decoders never touch the peak fields. -/
theorem jbdTempStep_peaks (data : List Nat) (len : ℤ) (d : JbdData) (i : Nat) :
    (jbdTempStep data len d i).peakCurrent = d.peakCurrent ∧
    (jbdTempStep data len d i).peakPower = d.peakPower := by
  simp only [jbdTempStep]
  split_ifs <;> exact ⟨rfl, rfl⟩

theorem jbdCellStep_peaks (data : List Nat) (len : ℤ) (d : JbdData) (i : Nat) :
    (jbdCellStep data len d i).peakCurrent = d.peakCurrent ∧
    (jbdCellStep data len d i).peakPower = d.peakPower := by
  simp only [jbdCellStep]
  split_ifs <;> exact ⟨rfl, rfl⟩

theorem jbdTempFold_peaks (data : List Nat) (len : ℤ) (l : List Nat) :
    ∀ d : JbdData,
      (l.foldl (jbdTempStep data len) d).peakCurrent = d.peakCurrent ∧
      (l.foldl (jbdTempStep data len) d).peakPower = d.peakPower := by
  induction l with
  | nil => exact fun d => ⟨rfl, rfl⟩
  | cons a t ih =>
    intro d
    rw [List.foldl_cons]
    exact ⟨((ih _).1.trans (jbdTempStep_peaks data len d a).1),
           ((ih _).2.trans (jbdTempStep_peaks data len d a).2)⟩

theorem jbdCellFold_peaks (data : List Nat) (len : ℤ) (l : List Nat) :
    ∀ d : JbdData,
      (l.foldl (jbdCellStep data len) d).peakCurrent = d.peakCurrent ∧
      (l.foldl (jbdCellStep data len) d).peakPower = d.peakPower := by
  induction l with
  | nil => exact fun d => ⟨rfl, rfl⟩
  | cons a t ih =>
    intro d
    rw [List.foldl_cons]
    exact ⟨((ih _).1.trans (jbdCellStep_peaks data len d a).1),
           ((ih _).2.trans (jbdCellStep_peaks data len d a).2)⟩

theorem jbd_parse_hwinfo_peaks (d : JbdData) (data : List Nat) (len : ℤ) :
    (jbd_parse_hwinfo d data len).peakCurrent = d.peakCurrent ∧
    (jbd_parse_hwinfo d data len).peakPower = d.peakPower := by
  unfold jbd_parse_hwinfo
  split
  · exact ⟨rfl, rfl⟩
  · exact ⟨((jbdTempFold_peaks _ _ _ _).1.trans rfl),
           ((jbdTempFold_peaks _ _ _ _).2.trans rfl)⟩

theorem jbd_parse_cellinfo_peaks (d : JbdData) (data : List Nat) (len : ℤ) :
    (jbd_parse_cellinfo d data len).peakCurrent = d.peakCurrent ∧
    (jbd_parse_cellinfo d data len).peakPower = d.peakPower := by
  unfold jbd_parse_cellinfo
  split
  · exact ⟨rfl, rfl⟩
  · exact ⟨((jbdCellFold_peaks _ _ _ _).1.trans rfl),
           ((jbdCellFold_peaks _ _ _ _).2.trans rfl)⟩

/-- The receive loop preserves the peak fields whenever its parse
function does. -/
theorem jbdRecvLoop_peaks (recv : Nat → List Nat) (reg : Nat)
    (parse : JbdData → List Nat → ℤ → JbdData)
    (hp : ∀ (x : JbdData) (buf : List Nat) (len : ℤ),
      (parse x buf len).peakCurrent = x.peakCurrent ∧
      (parse x buf len).peakPower = x.peakPower) :
    ∀ (fuel : Nat) (x : JbdData) (r : ℤ) (i : Nat),
      (jbdRecvLoop recv reg parse x r i fuel).1.peakCurrent = x.peakCurrent ∧
      (jbdRecvLoop recv reg parse x r i fuel).1.peakPower = x.peakPower := by
  intro fuel
  induction fuel with
  | zero => exact fun x r i => ⟨rfl, rfl⟩
  | succ n ih =>
    intro x r i
    simp only [jbdRecvLoop]
    split_ifs with h1 h2
    · exact hp x _ _
    · exact ih x (r - 1) (i + 1)
    · exact ⟨rfl, rfl⟩

/-- `jbd_bms_read_data` never touches the peak fields (only the peak
update on the success path of `jbd_bms_update` does). -/
theorem jbd_bms_read_data_peaks (d : JbdData) (recv : Nat → List Nat) :
    (jbd_bms_read_data d recv).1.peakCurrent = d.peakCurrent ∧
    (jbd_bms_read_data d recv).1.peakPower = d.peakPower := by
  have hhw := jbdRecvLoop_peaks recv JBD_CMD_HWINFO jbd_parse_hwinfo
    (fun x buf len => jbd_parse_hwinfo_peaks x buf len) 4 d 3 0
  have hcell := jbdRecvLoop_peaks recv JBD_CMD_CELLINFO jbd_parse_cellinfo
    (fun x buf len => jbd_parse_cellinfo_peaks x buf len) 4
    (jbdRecvLoop recv JBD_CMD_HWINFO jbd_parse_hwinfo d 3 0 4).1 3
    (jbdRecvLoop recv JBD_CMD_HWINFO jbd_parse_hwinfo d 3 0 4).2.2
  have hcmd : (jbd_cmd JBD_CMD_READ JBD_CMD_HWINFO []).isNone = false := by decide
  have hcmd2 : (jbd_cmd JBD_CMD_READ JBD_CMD_CELLINFO []).isNone = false := by decide
  simp only [jbd_bms_read_data, hcmd, hcmd2, Bool.false_eq_true, if_false]
  split_ifs with h1
  · exact hhw
  · exact ⟨hcell.1.trans hhw.1, hcell.2.trans hhw.2⟩

/-- C5 (confirmed): the peak trackers start the session at zero; each
update is `max(previous, |sample|)` componentwise; a poll never
decreases either peak; and every successful poll leaves
`peakCurrent ≥ |packCurrent|` and `peakPower ≥ |power|`. -/
theorem C5_theorem :
    (dalyZeroState.data.peakCurrent = 0 ∧ dalyZeroState.data.peakPower = 0 ∧
     jbdZeroData.peakCurrent = 0 ∧ jbdZeroData.peakPower = 0) ∧
    (∀ s : DalyState,
      (daly_bms_update_peak_values s).data.peakCurrent
          = max s.data.peakCurrent |s.data.packCurrent| ∧
      (daly_bms_update_peak_values s).data.peakPower
          = max s.data.peakPower |s.data.power|) ∧
    (∀ d : JbdData,
      (jbd_update_peak_values d).peakCurrent = max d.peakCurrent |d.packCurrent| ∧
      (jbd_update_peak_values d).peakPower = max d.peakPower |d.power|) ∧
    (∀ (s : DalyState) (rx : Nat → List Nat),
      s.data.peakCurrent ≤ (daly_bms_update s rx).1.data.peakCurrent ∧
      s.data.peakPower ≤ (daly_bms_update s rx).1.data.peakPower) ∧
    (∀ (d : JbdData) (recv : Nat → List Nat),
      d.peakCurrent ≤ (jbd_bms_update d recv).1.peakCurrent ∧
      d.peakPower ≤ (jbd_bms_update d recv).1.peakPower) ∧
    (∀ (s : DalyState) (rx : Nat → List Nat), (daly_bms_update s rx).2.1 = true →
      |(daly_bms_update s rx).1.data.packCurrent|
          ≤ (daly_bms_update s rx).1.data.peakCurrent ∧
      |(daly_bms_update s rx).1.data.power| ≤ (daly_bms_update s rx).1.data.peakPower) ∧
    (∀ (d : JbdData) (recv : Nat → List Nat), (jbd_bms_update d recv).2 = true →
      |(jbd_bms_update d recv).1.packCurrent| ≤ (jbd_bms_update d recv).1.peakCurrent ∧
      |(jbd_bms_update d recv).1.power| ≤ (jbd_bms_update d recv).1.peakPower) := by
  refine ⟨⟨rfl, rfl, rfl, rfl⟩, ?_, ?_, ?_, ?_, ?_, ?_⟩
  · exact fun s => ⟨(daly_bms_update_peak_values_spec s).1,
      (daly_bms_update_peak_values_spec s).2.1⟩
  · exact fun d => ⟨(jbd_update_peak_values_spec d).1,
      (jbd_update_peak_values_spec d).2.1⟩
  · intro s rx
    unfold daly_bms_update
    cases h : (daly_bms_get_pack_measurements s (rx 0)).2 <;>
      constructor <;>
        simp [h, daly_bms_update_peak_values_spec, dalyPeaks_pm, dalyPeaks_minmax,
          dalyPeaks_temp, dalyPeaks_status, dalyPeaks_cellv, dalyPeaks_cellt,
          dalyPeaks_bal, dalyPeaks_fail, dalyPeaks_mos, le_max_left]
  · intro d recv
    unfold jbd_bms_update
    cases h : (jbd_bms_read_data d recv).2.1 <;>
      constructor <;>
        simp [h, jbd_update_peak_values_spec, jbd_bms_read_data_peaks, le_max_left]
  · intro s rx hok
    cases h : (daly_bms_get_pack_measurements s (rx 0)).2
    · simp [daly_bms_update, h] at hok
    · constructor <;>
        simp [daly_bms_update, h, daly_bms_update_peak_values_spec, le_max_right]
  · intro d recv hok
    cases h : (jbd_bms_read_data d recv).2.1
    · simp [jbd_bms_update, h] at hok
    · constructor <;>
        simp [jbd_bms_update, h, jbd_update_peak_values_spec, le_max_right]

/-- Witness for `C5_theorem`'s success-path conjuncts at concrete
inputs. -/
theorem C5_theorem_witness :
    ((daly_bms_update dalyZeroState dalyAllValid).2.1 = true ∧
      |(daly_bms_update dalyZeroState dalyAllValid).1.data.packCurrent|
        ≤ (daly_bms_update dalyZeroState dalyAllValid).1.data.peakCurrent) ∧
    ((jbd_bms_update jbdZeroData recvTrunc).2 = true ∧
      |(jbd_bms_update jbdZeroData recvTrunc).1.packCurrent|
        ≤ (jbd_bms_update jbdZeroData recvTrunc).1.peakCurrent) := by
  have hd : (daly_bms_update dalyZeroState dalyAllValid).2.1 = true := by
    norm_num [daly_bms_update, daly_bms_get_pack_measurements, dalyValidFrame, dalyChecksum,
      frame90, dalyAllValid, byteAt, u16At, DALY_XFER_BUFFER_LENGTH]
  have hj : (jbd_bms_update jbdZeroData recvTrunc).2 = true := by
    norm_num [jbd_bms_update, jbd_bms_read_data, jbdRecvLoop, jbd_verify, jbd_cmd, jbd_crc,
      jbd_parse_hwinfo, jbd_parse_cellinfo, jbd_parse_protection, jbdTempStep, jbdCellStep,
      recvTrunc, jbdHwFrame, jbdShortCellFrame, mkJbdResponse, jbdHwPayload, jbdZeroData,
      jbdZeroProtect, byteAt, u16At, toInt16, List.range_succ, Function.update,
      JBD_XFER_BUFFER_LENGTH, JBD_MAX_CELLS, JBD_MAX_TEMP_SENSORS, JBD_PKT_START, JBD_PKT_END,
      JBD_CMD_READ, JBD_CMD_HWINFO, JBD_CMD_CELLINFO, jbd_update_peak_values]
  exact ⟨⟨hd, (C5_theorem.2.2.2.2.2.1 dalyZeroState dalyAllValid hd).1⟩,
         ⟨hj, (C5_theorem.2.2.2.2.2.2 jbdZeroData recvTrunc hj).1⟩⟩

/-! ## Bounded array writes (C9) -/

/-- The Daly cell-voltage loop never writes an index ≥ 9 (it decodes at
most 3 triplets). -/
theorem dalyCellVoltageLoop_bound (rx : List Nat) (nC : ℤ) :
    ∀ (fuel i : Nat) (arr : Nat → ℚ) (j : Nat), 9 ≤ j →
      dalyCellVoltageLoop rx nC fuel i arr j = arr j := by
  intro fuel
  induction fuel with
  | zero => intro i arr j hj; rfl
  | succ n ih =>
    intro i arr j hj
    simp only [dalyCellVoltageLoop]
    split_ifs with h1 h2
    · rw [ih (i + 1) _ j hj]
      have hi : i < 3 := h1.1
      rw [Function.update_noteq (show j ≠ i * 3 + 2 by omega),
        Function.update_noteq (show j ≠ i * 3 + 1 by omega),
        Function.update_noteq (show j ≠ i * 3 by omega)]
    · exact ih (i + 1) _ j hj
    · rfl

/-- The Daly temperature loop never writes an index ≥ 7. -/
theorem dalyCellTempLoop_bound (rx : List Nat) (nS : ℤ) :
    ∀ (fuel i : Nat) (arr : Nat → ℤ) (j : Nat), 7 ≤ j →
      dalyCellTempLoop rx nS fuel i arr j = arr j := by
  intro fuel
  induction fuel with
  | zero => intro i arr j hj; rfl
  | succ n ih =>
    intro i arr j hj
    simp only [dalyCellTempLoop]
    split_ifs with h1
    · rw [ih (i + 1) _ j hj]
      have hi : i < 7 := h1.1
      rw [Function.update_noteq (show j ≠ i by omega)]
    · rfl

/-- The Daly balance loop never writes an index ≥ 32. -/
theorem dalyBalanceLoop_bound (raw : Nat) (nC : ℤ) :
    ∀ (fuel i : Nat) (arr : Nat → Bool) (j : Nat), 32 ≤ j →
      dalyBalanceLoop raw nC fuel i arr j = arr j := by
  intro fuel
  induction fuel with
  | zero => intro i arr j hj; rfl
  | succ n ih =>
    intro i arr j hj
    simp only [dalyBalanceLoop]
    split_ifs with h1
    · rw [ih (i + 1) _ j hj]
      have hi : i < 32 := h1.1
      rw [Function.update_noteq (show j ≠ i by omega)]
    · rfl

/-- One JBD cell step leaves every index other than its own untouched. -/
theorem jbdCellStep_cellVoltages_noteq (data : List Nat) (len : ℤ) (d : JbdData)
    (a j : Nat) (h : j ≠ a) :
    (jbdCellStep data len d a).cellVoltages j = d.cellVoltages j := by
  simp only [jbdCellStep]
  split_ifs <;> simp [Function.update_noteq h]

/-- One JBD temperature step leaves every index other than its own
untouched. -/
theorem jbdTempStep_temperatures_noteq (data : List Nat) (len : ℤ) (d : JbdData)
    (a j : Nat) (h : j ≠ a) :
    (jbdTempStep data len d a).temperatures j = d.temperatures j := by
  simp only [jbdTempStep]
  split_ifs <;> simp [Function.update_noteq h]

theorem jbdCellFold_bound (data : List Nat) (len : ℤ) :
    ∀ (l : List Nat) (d : JbdData) (j : Nat), (∀ i ∈ l, i < JBD_MAX_CELLS) →
      JBD_MAX_CELLS ≤ j →
      (l.foldl (jbdCellStep data len) d).cellVoltages j = d.cellVoltages j := by
  intro l
  induction l with
  | nil => intro d j _ _; rfl
  | cons a t ih =>
    intro d j hl hj
    rw [List.foldl_cons, ih _ j (fun i hi => hl i (List.mem_cons_of_mem a hi)) hj]
    exact jbdCellStep_cellVoltages_noteq data len d a j
      (by have := hl a (List.mem_cons_self a t); omega)

theorem jbdTempFold_bound (data : List Nat) (len : ℤ) :
    ∀ (l : List Nat) (d : JbdData) (j : Nat), (∀ i ∈ l, i < JBD_MAX_TEMP_SENSORS) →
      JBD_MAX_TEMP_SENSORS ≤ j →
      (l.foldl (jbdTempStep data len) d).temperatures j = d.temperatures j := by
  intro l
  induction l with
  | nil => intro d j _ _; rfl
  | cons a t ih =>
    intro d j hl hj
    rw [List.foldl_cons, ih _ j (fun i hi => hl i (List.mem_cons_of_mem a hi)) hj]
    exact jbdTempStep_temperatures_noteq data len d a j
      (by have := hl a (List.mem_cons_self a t); omega)

/-- C9 (amended): the stored counts are NOT clipped (see
`C9_counterexample`), but every array write of both decoders stays
within the backing arrays: the Daly loops write cell voltages only below
index 9, temperatures below 7 and balance flags below 32, and the JBD
parsers write cell voltages only below `JBD_MAX_CELLS = 48` and
temperatures below `JBD_MAX_TEMP_SENSORS = 16`, whatever counts the
frames announce. -/
theorem C9_theorem :
    (∀ (s : DalyState) (rx : List Nat) (i : Nat), 9 ≤ i →
      (daly_bms_get_cell_voltages s rx).1.data.cellVmV i = s.data.cellVmV i) ∧
    (∀ (s : DalyState) (rx : List Nat) (i : Nat), 7 ≤ i →
      (daly_bms_get_cell_temperature s rx).1.data.cellTemperature i
        = s.data.cellTemperature i) ∧
    (∀ (s : DalyState) (rx : List Nat) (i : Nat), 32 ≤ i →
      (daly_bms_get_cell_balance_state s rx).1.data.cellBalanceState i
        = s.data.cellBalanceState i) ∧
    (∀ (d : JbdData) (data : List Nat) (len : ℤ) (i : Nat), JBD_MAX_CELLS ≤ i →
      (jbd_parse_cellinfo d data len).cellVoltages i = d.cellVoltages i) ∧
    (∀ (d : JbdData) (data : List Nat) (len : ℤ) (i : Nat), JBD_MAX_TEMP_SENSORS ≤ i →
      (jbd_parse_hwinfo d data len).temperatures i = d.temperatures i) := by
  refine ⟨?_, ?_, ?_, ?_, ?_⟩
  · intro s rx i hi
    unfold daly_bms_get_cell_voltages
    split
    · exact dalyCellVoltageLoop_bound rx s.data.numberOfCells 3 0 s.data.cellVmV i hi
    · rfl
  · intro s rx i hi
    unfold daly_bms_get_cell_temperature
    split
    · exact dalyCellTempLoop_bound rx s.data.numOfTempSensors 7 0 s.data.cellTemperature i hi
    · rfl
  · intro s rx i hi
    unfold daly_bms_get_cell_balance_state
    split
    · exact dalyBalanceLoop_bound _ s.data.numberOfCells 32 0 s.data.cellBalanceState i hi
    · rfl
  · intro d data len i hi
    unfold jbd_parse_cellinfo
    split
    · rfl
    · exact jbdCellFold_bound data len _ _ i
        (fun k hk => by
          have hk' := List.mem_range.mp hk
          have : min d.cellCount.toNat JBD_MAX_CELLS ≤ JBD_MAX_CELLS := min_le_right _ _
          omega) hi
  · intro d data len i hi
    unfold jbd_parse_hwinfo
    split
    · rfl
    · exact jbdTempFold_bound data len _ _ i
        (fun k hk => by
          have hk' := List.mem_range.mp hk
          have hmin : min ((byteAt data 22 : ℤ)).toNat JBD_MAX_TEMP_SENSORS
              ≤ JBD_MAX_TEMP_SENSORS := min_le_right _ _
          omega) hi

/-- Witness for `C9_theorem` at concrete indices just past each bound. -/
theorem C9_theorem_witness :
    (daly_bms_get_cell_voltages dalyZeroState frame90).1.data.cellVmV 9
        = dalyZeroState.data.cellVmV 9 ∧
    (daly_bms_get_cell_temperature dalyZeroState frame90).1.data.cellTemperature 7
        = dalyZeroState.data.cellTemperature 7 ∧
    (daly_bms_get_cell_balance_state dalyZeroState frame90).1.data.cellBalanceState 32
        = dalyZeroState.data.cellBalanceState 32 ∧
    (jbd_parse_cellinfo jbdZeroData [1, 2] 2).cellVoltages 48
        = jbdZeroData.cellVoltages 48 ∧
    (jbd_parse_hwinfo jbdZeroData jbdHwPayload 25).temperatures 16
        = jbdZeroData.temperatures 16 :=
  ⟨C9_theorem.1 dalyZeroState frame90 9 (by norm_num),
   C9_theorem.2.1 dalyZeroState frame90 7 (by norm_num),
   C9_theorem.2.2.1 dalyZeroState frame90 32 (by norm_num),
   C9_theorem.2.2.2.1 jbdZeroData [1, 2] 2 48 (by norm_num [JBD_MAX_CELLS]),
   C9_theorem.2.2.2.2 jbdZeroData jbdHwPayload 25 16 (by norm_num [JBD_MAX_TEMP_SENSORS])⟩

/-! ## JBD frame round-trip (C6) -/

/-- Evaluation of `jbd_verify` on a frame in the generic layout
`start | b1 | s | len | data | c1 c2 | end` when checked against `b1`:
every structural check passes and the verdict is exactly the CRC
comparison. -/
theorem jbd_verify_layout (b1 s : Nat) (data : List Nat) (c1 c2 : Nat) :
    jbd_verify ([JBD_PKT_START, b1, s, data.length] ++ data ++ [c1, c2, JBD_PKT_END]) b1
      = (jbd_crc ([s, data.length] ++ data) == c1 * 256 + c2) := by
  have hL : ([JBD_PKT_START, b1, s, data.length] ++ data ++ [c1, c2, JBD_PKT_END]).length
      = data.length + 7 := by simp
  have htail : ∀ k : Nat,
      byteAt ([JBD_PKT_START, b1, s, data.length] ++ data ++ [c1, c2, JBD_PKT_END])
        (4 + data.length + k) = byteAt [c1, c2, JBD_PKT_END] k := by
    intro k
    show ([JBD_PKT_START, b1, s, data.length] ++ (data ++ [c1, c2, JBD_PKT_END])).getD
        (4 + data.length + k) 0 = _
    rw [List.getD_append_right _ _ _ _ (by simp; omega)]
    simp only [List.length_cons, List.length_nil]
    rw [show 4 + data.length + k - (0 + 1 + 1 + 1 + 1) = data.length + k by omega,
      List.getD_append_right _ _ _ _ (by omega),
      show data.length + k - data.length = k by omega]
    rfl
  have htake :
      (([JBD_PKT_START, b1, s, data.length] ++ data ++ [c1, c2, JBD_PKT_END]).drop 2).take
        (data.length + 2) = [s, data.length] ++ data := by
    show ((s :: data.length :: data) ++ [c1, c2, JBD_PKT_END]).take (data.length + 2)
        = [s, data.length] ++ data
    exact List.take_left' (by simp only [List.length_cons]; try omega)
  have hb0 : byteAt ([JBD_PKT_START, b1, s, data.length] ++ data ++ [c1, c2, JBD_PKT_END]) 0
      = JBD_PKT_START := rfl
  have hb1 : byteAt ([JBD_PKT_START, b1, s, data.length] ++ data ++ [c1, c2, JBD_PKT_END]) 1
      = b1 := rfl
  have hb3 : byteAt ([JBD_PKT_START, b1, s, data.length] ++ data ++ [c1, c2, JBD_PKT_END]) 3
      = data.length := rfl
  have hpkt : u16At ([JBD_PKT_START, b1, s, data.length] ++ data ++ [c1, c2, JBD_PKT_END])
      (4 + data.length) (5 + data.length) = c1 * 256 + c2 := by
    unfold u16At
    rw [show 4 + data.length = 4 + data.length + 0 by omega, htail 0,
      show 5 + data.length = 4 + data.length + 1 by omega, htail 1]
    rfl
  have hend : byteAt ([JBD_PKT_START, b1, s, data.length] ++ data ++ [c1, c2, JBD_PKT_END])
      (6 + data.length) = JBD_PKT_END := by
    rw [show 6 + data.length = 4 + data.length + 2 by omega, htail 2]
    rfl
  simp only [jbd_verify]
  rw [if_neg (by rw [hL]; omega)]
  rw [if_neg (by rw [hb0]; try simp)]
  rw [if_neg (by rw [hb1]; try simp)]
  rw [if_neg (by rw [hb3, hL]; try simp)]
  rw [hb3, htake, hpkt]
  generalize jbd_crc ([s, data.length] ++ data) = C
  cases hbe : (C == c1 * 256 + c2)
  · rw [if_pos]
    have hne : ¬C = c1 * 256 + c2 := by
      intro hc
      rw [hc] at hbe
      simp at hbe
    simp [bne, hne]
  · rw [if_neg (by simp [bne, hbe]), hend]
    simp

/-- C6 (amended): `jbd_cmd` writes the action byte at index 1 and the
register at index 2, while `jbd_verify` expects the register at index 1
(the response layout), so encode-then-verify against the register fails
whenever `action ≠ register` (see `C6_counterexample`).  Verifying the
encoded frame against its *action* byte succeeds and recovers the
original register and data, for payloads of at most 249 bytes (250
bytes would already overflow the driver's 256-byte transmit buffer by
one); and changing either CRC byte of the frame to any other value makes
verification fail. -/
theorem C6_theorem (action reg : Nat) (data : List Nat)
    (ha : action ≠ JBD_CMD_READ) (hlen : data.length ≤ 249) :
    jbd_cmd action reg data =
      some ([JBD_PKT_START, action, reg, data.length] ++ data ++
        [jbd_crc ([reg, data.length] ++ data) / 256 % 256,
         jbd_crc ([reg, data.length] ++ data) % 256, JBD_PKT_END]) ∧
    jbd_verify ([JBD_PKT_START, action, reg, data.length] ++ data ++
        [jbd_crc ([reg, data.length] ++ data) / 256 % 256,
         jbd_crc ([reg, data.length] ++ data) % 256, JBD_PKT_END]) action = true ∧
    byteAt ([JBD_PKT_START, action, reg, data.length] ++ data ++
        [jbd_crc ([reg, data.length] ++ data) / 256 % 256,
         jbd_crc ([reg, data.length] ++ data) % 256, JBD_PKT_END]) 2 = reg ∧
    (([JBD_PKT_START, action, reg, data.length] ++ data ++
        [jbd_crc ([reg, data.length] ++ data) / 256 % 256,
         jbd_crc ([reg, data.length] ++ data) % 256, JBD_PKT_END]).drop 4).take data.length
      = data ∧
    (∀ b : Nat, b ≠ jbd_crc ([reg, data.length] ++ data) / 256 % 256 →
      jbd_verify ([JBD_PKT_START, action, reg, data.length] ++ data ++
        [b, jbd_crc ([reg, data.length] ++ data) % 256, JBD_PKT_END]) action = false) ∧
    (∀ b : Nat, b ≠ jbd_crc ([reg, data.length] ++ data) % 256 →
      jbd_verify ([JBD_PKT_START, action, reg, data.length] ++ data ++
        [jbd_crc ([reg, data.length] ++ data) / 256 % 256, b, JBD_PKT_END]) action
        = false) := by
  have hcrc : jbd_crc ([reg, data.length] ++ data) < 65536 := by
    unfold jbd_crc; omega
  have hsplit : jbd_crc ([reg, data.length] ++ data) / 256 % 256 * 256 +
      jbd_crc ([reg, data.length] ++ data) % 256 = jbd_crc ([reg, data.length] ++ data) := by
    omega
  refine ⟨?_, ?_, rfl, ?_, ?_, ?_⟩
  · unfold jbd_cmd
    have hba : (action == JBD_CMD_READ) = false := beq_false_of_ne ha
    rw [hba]
    simp only [Bool.false_eq_true, if_false]
    rw [if_neg (by unfold JBD_XFER_BUFFER_LENGTH; omega)]
    try rfl
  · rw [jbd_verify_layout action reg data _ _, hsplit]
    exact beq_self_eq_true _
  · show (data ++ [jbd_crc ([reg, data.length] ++ data) / 256 % 256,
        jbd_crc ([reg, data.length] ++ data) % 256, JBD_PKT_END]).take data.length = data
    exact List.take_left' rfl
  · intro b hb
    rw [jbd_verify_layout action reg data _ _]
    refine beq_eq_false_iff_ne.mpr fun hEq => hb ?_
    omega
  · intro b hb
    rw [jbd_verify_layout action reg data _ _]
    refine beq_eq_false_iff_ne.mpr fun hEq => hb ?_
    omega

/-- Witness for `C6_theorem`: a write of register 3 with payload
`[1, 2]` round-trips against the action byte, and zeroing the high CRC
byte breaks verification. -/
theorem C6_theorem_witness :
    jbd_verify ([JBD_PKT_START, JBD_CMD_WRITE, 0x03, ([1, 2] : List Nat).length] ++ [1, 2] ++
        [jbd_crc ([0x03, ([1, 2] : List Nat).length] ++ [1, 2]) / 256 % 256,
         jbd_crc ([0x03, ([1, 2] : List Nat).length] ++ [1, 2]) % 256, JBD_PKT_END])
      JBD_CMD_WRITE = true ∧
    jbd_verify ([JBD_PKT_START, JBD_CMD_WRITE, 0x03, ([1, 2] : List Nat).length] ++ [1, 2] ++
        [0, jbd_crc ([0x03, ([1, 2] : List Nat).length] ++ [1, 2]) % 256, JBD_PKT_END])
      JBD_CMD_WRITE = false :=
  ⟨(C6_theorem JBD_CMD_WRITE 0x03 [1, 2] (by decide) (by decide)).2.1,
   (C6_theorem JBD_CMD_WRITE 0x03 [1, 2] (by decide) (by decide)).2.2.2.2.1 0 (by decide)⟩

/-! ## Cell statistics (C10) -/

/-- One guarded iteration of the CELLINFO loop, as explicit field
equations: the cell voltage is stored and the min/max trackers take the
strict-comparison branch of the source. -/
theorem jbdCellStep_spec (data : List Nat) (len : ℤ) (G : JbdData) (k : Nat)
    (hg : ((k : ℤ) * 2 + 1) < len) :
    (jbdCellStep data len G k).cellVoltages
        = Function.update G.cellVoltages k ((u16At data (k * 2) (k * 2 + 1) : ℚ) / 1000) ∧
    (jbdCellStep data len G k).minCellVoltage =
      (if ((u16At data (k * 2) (k * 2 + 1) : ℚ) / 1000) < G.minCellVoltage
       then (u16At data (k * 2) (k * 2 + 1) : ℚ) / 1000 else G.minCellVoltage) ∧
    (jbdCellStep data len G k).minCellNumber =
      (if ((u16At data (k * 2) (k * 2 + 1) : ℚ) / 1000) < G.minCellVoltage
       then (k : ℤ) + 1 else G.minCellNumber) ∧
    (jbdCellStep data len G k).maxCellVoltage =
      (if ((u16At data (k * 2) (k * 2 + 1) : ℚ) / 1000) > G.maxCellVoltage
       then (u16At data (k * 2) (k * 2 + 1) : ℚ) / 1000 else G.maxCellVoltage) ∧
    (jbdCellStep data len G k).maxCellNumber =
      (if ((u16At data (k * 2) (k * 2 + 1) : ℚ) / 1000) > G.maxCellVoltage
       then (k : ℤ) + 1 else G.maxCellNumber) := by
  simp only [jbdCellStep]
  rw [if_pos hg]
  by_cases h1 : ((u16At data (k * 2) (k * 2 + 1) : ℚ) / 1000) < G.minCellVoltage <;>
    by_cases h2 : ((u16At data (k * 2) (k * 2 + 1) : ℚ) / 1000) > G.maxCellVoltage <;>
      simp [h1, h2]

/-- The CELLINFO loop establishes `CellStats` over any prefix of cells,
provided every decoded voltage lies strictly between the 0 V and 5 V
sentinels and the payload covers the prefix. -/
theorem jbdCellFold_stats (data : List Nat) (len : ℤ) (n : Nat) (v : Nat → ℚ)
    (hvdef : ∀ i, v i = (u16At data (i * 2) (i * 2 + 1) : ℚ) / 1000)
    (hlen : (n : ℤ) * 2 ≤ len)
    (hpos : ∀ i, i < n → 0 < v i) (hlt5 : ∀ i, i < n → v i < 5) :
    ∀ (k : Nat), 1 ≤ k → k ≤ n → ∀ d1 : JbdData,
      d1.minCellVoltage = 5 → d1.maxCellVoltage = 0 →
      CellStats v k ((List.range k).foldl (jbdCellStep data len) d1) := by
  intro k hk1
  induction k, hk1 using Nat.le_induction with
  | base =>
    intro hkn d1 hmin hmax
    have hg : ((0 : Nat) : ℤ) * 2 + 1 < len := by push_cast; omega
    have spec := jbdCellStep_spec data len d1 0 hg
    rw [← hvdef 0] at spec
    obtain ⟨hcv, hminV, hminN, hmaxV, hmaxN⟩ := spec
    have hv0lt : v 0 < d1.minCellVoltage := by rw [hmin]; exact hlt5 0 (by omega)
    have hv0gt : v 0 > d1.maxCellVoltage := by rw [hmax]; exact hpos 0 (by omega)
    rw [List.range_succ, List.range_zero, List.nil_append, List.foldl_cons, List.foldl_nil]
    rw [if_pos hv0lt] at hminV hminN
    rw [if_pos hv0gt] at hmaxV hmaxN
    refine ⟨?_, ?_, ?_, ?_, ?_, ?_, ?_, ?_, ?_, ?_, ?_⟩
    · intro i hi
      have : i = 0 := by omega
      subst this
      rw [hcv, Function.update_same]
    · rw [hminN]; omega
    · rw [hminN]; omega
    · rw [hminV, hminN]
      norm_num
    · intro j hj
      have : j = 0 := by omega
      subst this
      rw [hminV]
    · intro j hj
      rw [hminN] at hj
      omega
    · rw [hmaxN]; omega
    · rw [hmaxN]; omega
    · rw [hmaxV, hmaxN]
      norm_num
    · intro j hj
      have : j = 0 := by omega
      subst this
      rw [hmaxV]
    · intro j hj
      rw [hmaxN] at hj
      omega
  | succ k hk ih =>
    intro hkn d1 hmin hmax
    obtain ⟨hcv, hminN1, hminNk, hminVeq, hminle, hminstrict,
      hmaxN1, hmaxNk, hmaxVeq, hmaxle, hmaxstrict⟩ := ih (by omega) d1 hmin hmax
    rw [List.range_succ, List.foldl_append, List.foldl_cons, List.foldl_nil]
    have hg : ((k : ℤ) * 2 + 1) < len := by omega
    have spec := jbdCellStep_spec data len
      ((List.range k).foldl (jbdCellStep data len) d1) k hg
    rw [← hvdef k] at spec
    obtain ⟨scv, sminV, sminN, smaxV, smaxN⟩ := spec
    have hvk5 : v k < 5 := hlt5 k (by omega)
    have hvk0 : 0 < v k := hpos k (by omega)
    refine ⟨?_, ?_, ?_, ?_, ?_, ?_, ?_, ?_, ?_, ?_, ?_⟩
    · intro i hi
      rw [scv]
      by_cases hik : i = k
      · subst hik; rw [Function.update_same]
      · rw [Function.update_noteq hik]
        exact hcv i (by omega)
    · rw [sminN]; split_ifs <;> omega
    · rw [sminN]; split_ifs <;> push_cast <;> omega
    · rw [sminV, sminN]
      split_ifs with hc
      · rw [show ((k : ℤ) + 1 - 1).toNat = k by omega]
      · exact hminVeq
    · intro j hj
      rw [sminV]
      split_ifs with hc
      · by_cases hjk : j = k
        · subst hjk; exact le_refl _
        · exact le_of_lt (lt_of_lt_of_le hc (hminle j (by omega)))
      · by_cases hjk : j = k
        · subst hjk; exact not_lt.mp hc
        · exact hminle j (by omega)
    · intro j hj
      rw [sminV] at *
      rw [sminN] at hj
      split_ifs with hc
      · split_ifs at hj
        exact lt_of_lt_of_le hc (hminle j (by omega))
      · split_ifs at hj
        exact hminstrict j hj
    · rw [smaxN]; split_ifs <;> omega
    · rw [smaxN]; split_ifs <;> push_cast <;> omega
    · rw [smaxV, smaxN]
      split_ifs with hc
      · rw [show ((k : ℤ) + 1 - 1).toNat = k by omega]
      · exact hmaxVeq
    · intro j hj
      rw [smaxV]
      split_ifs with hc
      · by_cases hjk : j = k
        · subst hjk; exact le_refl _
        · exact le_of_lt (lt_of_le_of_lt (hmaxle j (by omega)) hc)
      · by_cases hjk : j = k
        · subst hjk; exact not_lt.mp hc
        · exact hmaxle j (by omega)
    · intro j hj
      rw [smaxV] at *
      rw [smaxN] at hj
      split_ifs with hc
      · split_ifs at hj
        exact lt_of_le_of_lt (hmaxle j (by omega)) hc
      · split_ifs at hj
        exact hmaxstrict j hj

/-- C10 (amended): when every decoded cell voltage lies strictly between
the decoder's 0 V and 5 V sentinels (and the payload is long enough), the
JBD CELLINFO decoder computes the true array statistics: the stored
array matches the wire values, `minCellVoltage`/`maxCellVoltage` are the
array minimum/maximum, the min/max cell numbers are the 1-based indices
of the first attaining cells, `min ≤ max` holds, and the delta getter
returns exactly `max − min`.  The Daly driver, by contrast, copies
min/max and cell numbers straight from the 0x91 frame — its `cellDiff`
is still exactly `max − min` of the stored fields, but `min ≤ max` is
not enforced (see `C10_counterexample`), and outside the sentinel range
the JBD tracker keeps stale values. -/
theorem C10_theorem (d : JbdData) (data : List Nat) (len : ℤ) (n : Nat)
    (hn1 : 1 ≤ n) (hn48 : n ≤ 48) (hcc : d.cellCount = (n : ℤ))
    (hlen : (n : ℤ) * 2 ≤ len)
    (hraw : ∀ i, i < n →
      0 < u16At data (i * 2) (i * 2 + 1) ∧ u16At data (i * 2) (i * 2 + 1) < 5000) :
    CellStats (fun i => (u16At data (i * 2) (i * 2 + 1) : ℚ) / 1000) n
      (jbd_parse_cellinfo d data len) ∧
    (jbd_parse_cellinfo d data len).minCellVoltage
      ≤ (jbd_parse_cellinfo d data len).maxCellVoltage ∧
    jbd_bms_get_cell_voltage_delta (jbd_parse_cellinfo d data len)
      = (jbd_parse_cellinfo d data len).maxCellVoltage
        - (jbd_parse_cellinfo d data len).minCellVoltage ∧
    (∀ (s : DalyState) (rx : List Nat), dalyValidFrame rx = true →
      (daly_bms_get_min_max_cell_voltage s rx).1.data.cellDiff
        = (daly_bms_get_min_max_cell_voltage s rx).1.data.maxCellmV
          - (daly_bms_get_min_max_cell_voltage s rx).1.data.minCellmV) := by
  have hparse : jbd_parse_cellinfo d data len
      = (List.range n).foldl (jbdCellStep data len)
          { d with minCellVoltage := 5, maxCellVoltage := 0,
                   minCellNumber := 0, maxCellNumber := 0 } := by
    unfold jbd_parse_cellinfo
    rw [if_neg (by rw [hcc]; omega)]
    rw [hcc]
    rw [show ((n : ℤ)).toNat = n by omega, show min n JBD_MAX_CELLS = n by
      unfold JBD_MAX_CELLS; omega]
  have hstats : CellStats (fun i => (u16At data (i * 2) (i * 2 + 1) : ℚ) / 1000) n
      (jbd_parse_cellinfo d data len) := by
    rw [hparse]
    refine jbdCellFold_stats data len n _ (fun i => rfl) hlen ?_ ?_ n hn1 (le_refl n) _ rfl rfl
    · intro i hi
      have := (hraw i hi).1
      positivity
    · intro i hi
      have h5 := (hraw i hi).2
      rw [div_lt_iff₀ (by norm_num)]
      calc ((u16At data (i * 2) (i * 2 + 1) : ℚ)) < 5000 := by exact_mod_cast h5
        _ = 5 * 1000 := by norm_num
  refine ⟨hstats, ?_, rfl, ?_⟩
  · obtain ⟨hcv, hminN1, hminNk, hminVeq, hminle, hminstrict,
      hmaxN1, hmaxNk, hmaxVeq, hmaxle, hmaxstrict⟩ := hstats
    rw [hmaxVeq]
    exact hminle _ (by omega)
  · intro s rx hvalid
    unfold daly_bms_get_min_max_cell_voltage
    rw [if_pos hvalid]

/-- Witness for `C10_theorem` on a two-cell payload (3.100 V, 3.000 V)
and on the Daly side on `frame91`. -/
theorem C10_theorem_witness :
    (jbd_parse_cellinfo jbdTwoCells cellData4 4).minCellVoltage
      ≤ (jbd_parse_cellinfo jbdTwoCells cellData4 4).maxCellVoltage ∧
    (daly_bms_get_min_max_cell_voltage dalyZeroState frame91).1.data.cellDiff
      = (daly_bms_get_min_max_cell_voltage dalyZeroState frame91).1.data.maxCellmV
        - (daly_bms_get_min_max_cell_voltage dalyZeroState frame91).1.data.minCellmV :=
  ⟨(C10_theorem jbdTwoCells cellData4 4 2 (by decide) (by decide) (by decide) (by decide)
      (by decide)).2.1,
   (C10_theorem jbdTwoCells cellData4 4 2 (by decide) (by decide) (by decide) (by decide)
      (by decide)).2.2.2 dalyZeroState frame91
    (by norm_num [dalyValidFrame, dalyChecksum, frame91, byteAt, DALY_XFER_BUFFER_LENGTH])⟩

end BmsMonitor
